import Mathlib

/-!
# 01_loadtime_dynlink/loadtime_dynlink.c

A shallow embedding of `main` of `loadtime_dynlink.c`: the program creates a
Vulkan instance, enumerates the physical devices with the count-then-fill
protocol, prints a report for every device and destroys the instance.

The Vulkan loader is modelled as an oracle (`Driver`): every call of the
program into the loader is answered by the oracle, and the run of `main` is the
pair of the sequence of observable events (calls into the loader and `printf`
calls, in program order) and the value `main` returns.

Unsigned 32-bit quantities are natural numbers; the program performs no
arithmetic on them besides the loop increments `i++`, `j++`, which are guarded
by `i < num_devices`, `j < q_families_count` and therefore never wrap.
Floating-point limits are carried as opaque bit patterns: the program only
passes them on to `printf`.
-/

namespace LoadtimeDynlink

/-! ## Constants of `vulkan/vulkan.h` used by the program

The header is not part of the repository; the values are those of the Khronos
header `vulkan_core.h`. -/

/-- The `VkResult` value `VK_SUCCESS`. -/
def VK_SUCCESS : Int := 0

/-- The null handle `VK_NULL_HANDLE`. -/
def VK_NULL_HANDLE : Nat := 0

/-- The `VkStructureType` value `VK_STRUCTURE_TYPE_APPLICATION_INFO`. -/
def VK_STRUCTURE_TYPE_APPLICATION_INFO : Nat := 0

/-- The `VkStructureType` value `VK_STRUCTURE_TYPE_INSTANCE_CREATE_INFO`. -/
def VK_STRUCTURE_TYPE_INSTANCE_CREATE_INFO : Nat := 1

/-- The header's `VK_MAKE_VERSION(major, minor, patch)`. -/
def VK_MAKE_VERSION (major minor patch : Nat) : Nat :=
  ((major <<< 22) ||| (minor <<< 12) ||| patch) % 2 ^ 32

/-- The header's `VK_API_VERSION_1_0`, which is `VK_MAKE_API_VERSION(0, 1, 0, 0)`. -/
def VK_API_VERSION_1_0 : Nat :=
  ((0 <<< 29) ||| (1 <<< 22) ||| (0 <<< 12) ||| 0) % 2 ^ 32

/-- The header's `VK_API_VERSION_MAJOR(version)`. -/
def VK_API_VERSION_MAJOR (version : Nat) : Nat := (version >>> 22) &&& 0x7F

/-- The header's `VK_API_VERSION_MINOR(version)`. -/
def VK_API_VERSION_MINOR (version : Nat) : Nat := (version >>> 12) &&& 0x3FF

/-- The header's `VK_API_VERSION_PATCH(version)`. -/
def VK_API_VERSION_PATCH (version : Nat) : Nat := version &&& 0xFFF

/-- The header's `VK_API_VERSION_VARIANT(version)`. -/
def VK_API_VERSION_VARIANT (version : Nat) : Nat := version >>> 29

/-- The `VkPhysicalDeviceType` value `VK_PHYSICAL_DEVICE_TYPE_OTHER`. -/
def VK_PHYSICAL_DEVICE_TYPE_OTHER : Nat := 0

/-- The `VkPhysicalDeviceType` value `VK_PHYSICAL_DEVICE_TYPE_INTEGRATED_GPU`. -/
def VK_PHYSICAL_DEVICE_TYPE_INTEGRATED_GPU : Nat := 1

/-- The `VkPhysicalDeviceType` value `VK_PHYSICAL_DEVICE_TYPE_DISCRETE_GPU`. -/
def VK_PHYSICAL_DEVICE_TYPE_DISCRETE_GPU : Nat := 2

/-- The `VkPhysicalDeviceType` value `VK_PHYSICAL_DEVICE_TYPE_VIRTUAL_GPU`. -/
def VK_PHYSICAL_DEVICE_TYPE_VIRTUAL_GPU : Nat := 3

/-- The `VkPhysicalDeviceType` value `VK_PHYSICAL_DEVICE_TYPE_CPU`. -/
def VK_PHYSICAL_DEVICE_TYPE_CPU : Nat := 4

/-- The `VkQueueFlagBits` value `VK_QUEUE_GRAPHICS_BIT`. -/
def VK_QUEUE_GRAPHICS_BIT : Nat := 0x1

/-- The `VkQueueFlagBits` value `VK_QUEUE_COMPUTE_BIT`. -/
def VK_QUEUE_COMPUTE_BIT : Nat := 0x2

/-- The `VkQueueFlagBits` value `VK_QUEUE_TRANSFER_BIT`. -/
def VK_QUEUE_TRANSFER_BIT : Nat := 0x4

/-- The `VkQueueFlagBits` value `VK_QUEUE_SPARSE_BINDING_BIT`. -/
def VK_QUEUE_SPARSE_BINDING_BIT : Nat := 0x8

/-- The `VkQueueFlagBits` value `VK_QUEUE_PROTECTED_BIT`. -/
def VK_QUEUE_PROTECTED_BIT : Nat := 0x10

/-- The `VkQueueFlagBits` value `VK_QUEUE_VIDEO_DECODE_BIT_KHR`, declared by the
header because the source defines `VK_ENABLE_BETA_EXTENSIONS` before including it. -/
def VK_QUEUE_VIDEO_DECODE_BIT_KHR : Nat := 0x20

/-- The `VkQueueFlagBits` value `VK_QUEUE_VIDEO_ENCODE_BIT_KHR`, declared by the
header because the source defines `VK_ENABLE_BETA_EXTENSIONS` before including it. -/
def VK_QUEUE_VIDEO_ENCODE_BIT_KHR : Nat := 0x40

/-- The `VkVendorId` value `VK_VENDOR_ID_VIV`. -/
def VK_VENDOR_ID_VIV : Nat := 0x10001

/-- The `VkVendorId` value `VK_VENDOR_ID_VSI`. -/
def VK_VENDOR_ID_VSI : Nat := 0x10002

/-- The `VkVendorId` value `VK_VENDOR_ID_KAZAN`. -/
def VK_VENDOR_ID_KAZAN : Nat := 0x10003

/-- The `VkVendorId` value `VK_VENDOR_ID_CODEPLAY`. -/
def VK_VENDOR_ID_CODEPLAY : Nat := 0x10004

/-- The `VkVendorId` value `VK_VENDOR_ID_MESA`. -/
def VK_VENDOR_ID_MESA : Nat := 0x10005

/-- The `VkVendorId` value `VK_VENDOR_ID_POCL`. -/
def VK_VENDOR_ID_POCL : Nat := 0x10006

/-! ## The vendor table and its scan -/

/-- The anonymous struct type of the elements of `vendors`. -/
structure VendorEntry where
  vendor_id : Nat
  vendor_name : String
deriving DecidableEq, Repr

/-- The table `vendors` of `main`, in source order. -/
def vendors : List VendorEntry :=
  [ ⟨0x1002, "AMD"⟩,
    ⟨0x1010, "ImgTec"⟩,
    ⟨0x10DE, "Nvidia"⟩,
    ⟨0x13B5, "ARM"⟩,
    ⟨0x5143, "Qualcomm"⟩,
    ⟨0x8086, "Intel"⟩,
    ⟨VK_VENDOR_ID_VIV, "VIV"⟩,
    ⟨VK_VENDOR_ID_VSI, "VSI"⟩,
    ⟨VK_VENDOR_ID_KAZAN, "KAZAN"⟩,
    ⟨VK_VENDOR_ID_CODEPLAY, "CODEPLAY"⟩,
    ⟨VK_VENDOR_ID_MESA, "MESA"⟩,
    ⟨VK_VENDOR_ID_POCL, "POCL"⟩ ]

/-- The loop `for(int i = 0; i < sizeof(vendors) / sizeof(vendors[0]); i++)` over a
table `tbl`, entered at index `i` with `remaining` iterations left: the name of the
entry at which the loop prints and breaks, or `none` when it runs to the end. -/
def vendorScan (tbl : List VendorEntry) (vendorID : Nat) : Nat → Nat → Option String
  | 0, _ => none
  | remaining + 1, i =>
    match tbl.get? i with
    | none => none
    | some e =>
      if e.vendor_id = vendorID then some e.vendor_name
      else vendorScan tbl vendorID remaining (i + 1)

/-- The vendor lookup over a table: the scan from index 0 over all its entries. -/
def lookupIn (tbl : List VendorEntry) (vendorID : Nat) : Option String :=
  vendorScan tbl vendorID tbl.length 0

/-- The vendor lookup of `main`: the scan of `vendors`. -/
def lookup (vendorID : Nat) : Option String :=
  lookupIn vendors vendorID

/-! ## Device type and queue flags -/

/-- The `switch(dev_properties.deviceType)`: the format string printed. -/
def deviceTypeName (deviceType : Nat) : String :=
  if deviceType = VK_PHYSICAL_DEVICE_TYPE_OTHER then "Other\n"
  else if deviceType = VK_PHYSICAL_DEVICE_TYPE_INTEGRATED_GPU then "Integrated GPU\n"
  else if deviceType = VK_PHYSICAL_DEVICE_TYPE_DISCRETE_GPU then "Discrete GPU\n"
  else if deviceType = VK_PHYSICAL_DEVICE_TYPE_VIRTUAL_GPU then "Virtual GPU\n"
  else if deviceType = VK_PHYSICAL_DEVICE_TYPE_CPU then "CPU\n"
  else "Unknown\n"

/-- One `if(q_fam_props[j].queueFlags & bit) printf(name);` of the flag chain. -/
def flagName (queueFlags bit : Nat) (name : String) : List String :=
  if queueFlags &&& bit ≠ 0 then [name] else []

/-- The chain of seven flag tests of the queue-family loop (the two video tests are
compiled in, `VK_ENABLE_BETA_EXTENSIONS` being defined): the names printed, in
order. -/
def decodeQueueFlags (queueFlags : Nat) : List String :=
  flagName queueFlags VK_QUEUE_GRAPHICS_BIT " VK_QUEUE_GRAPHICS_BIT" ++
  flagName queueFlags VK_QUEUE_COMPUTE_BIT " VK_QUEUE_COMPUTE_BIT" ++
  flagName queueFlags VK_QUEUE_TRANSFER_BIT " VK_QUEUE_TRANSFER_BIT" ++
  flagName queueFlags VK_QUEUE_SPARSE_BINDING_BIT " VK_QUEUE_SPARSE_BINDING_BIT" ++
  flagName queueFlags VK_QUEUE_PROTECTED_BIT " VK_QUEUE_PROTECTED_BIT" ++
  flagName queueFlags VK_QUEUE_VIDEO_DECODE_BIT_KHR " VK_QUEUE_VIDEO_DECODE_BIT_KHR" ++
  flagName queueFlags VK_QUEUE_VIDEO_ENCODE_BIT_KHR " VK_QUEUE_VIDEO_ENCODE_BIT_KHR"

/-! ## Data exchanged with the loader -/

/-- The fields of `VkApplicationInfo` that `main` sets. -/
structure VkApplicationInfo where
  sType : Nat
  pApplicationName : String
  applicationVersion : Nat
  pEngineName : String
  engineVersion : Nat
  apiVersion : Nat
deriving DecidableEq, Repr

/-- The fields of `VkInstanceCreateInfo` that `main` sets (both name arrays are
`NULL`, with count 0). -/
structure VkInstanceCreateInfo where
  sType : Nat
  flags : Nat
  pApplicationInfo : VkApplicationInfo
  enabledLayerCount : Nat
  enabledExtensionCount : Nat
deriving DecidableEq, Repr

/-- The members of `VkPhysicalDeviceLimits` that `main` reads. The `float` members
are bit patterns. -/
structure VkPhysicalDeviceLimits where
  maxImageDimension1D : Nat
  maxImageDimension2D : Nat
  maxImageDimension3D : Nat
  maxImageDimensionCube : Nat
  maxTexelBufferElements : Nat
  sparseAddressSpaceSize : Nat
  maxGeometryOutputVertices : Nat
  maxViewportDimensions : Nat × Nat
  maxFramebufferWidth : Nat
  maxFramebufferHeight : Nat
  pointSizeRange : Nat × Nat
  pointSizeGranularity : Nat
  lineWidthRange : Nat × Nat
  lineWidthGranularity : Nat
deriving DecidableEq, Repr

/-- The members of `VkPhysicalDeviceProperties` that `main` reads. -/
structure VkPhysicalDeviceProperties where
  apiVersion : Nat
  driverVersion : Nat
  vendorID : Nat
  deviceID : Nat
  deviceType : Nat
  deviceName : String
  limits : VkPhysicalDeviceLimits
deriving DecidableEq, Repr

/-- The members of `VkQueueFamilyProperties` that `main` reads. -/
structure VkQueueFamilyProperties where
  queueFlags : Nat
  queueCount : Nat
deriving DecidableEq, Repr

/-- An argument passed to `printf` after the format string. -/
inductive Arg where
  | num (n : Nat)
  | str (s : String)
  | flt (bits : Nat)
deriving DecidableEq, Repr

/-- An observable step of `main`: a `printf` call with its format string and
arguments, or a call into the loader with the arguments the program controls.
For the two enumeration functions `count` is the value of the count variable on
entry and `buf` is `none` for a `NULL` array and `some len` for an array of `len`
elements. -/
inductive Event where
  | printf (fmt : String) (args : List Arg)
  | vkCreateInstance (create_info : VkInstanceCreateInfo)
  | vkEnumeratePhysicalDevices (vk_instance : Nat) (count : Nat) (buf : Option Nat)
  | vkGetPhysicalDeviceProperties (dev : Nat)
  | vkGetPhysicalDeviceFeatures (dev : Nat)
  | vkGetPhysicalDeviceQueueFamilyProperties (dev : Nat) (count : Nat) (buf : Option Nat)
  | vkDestroyInstance (vk_instance : Nat)
deriving DecidableEq, Repr

/-- The loader as an oracle: what each call of `main` into it returns and writes.
Nothing is assumed of the answers.

* `vkCreateInstance`: the status and the handle stored in `vk_instance`;
* `countDevices`: status and value of `num_devices` after the call with a `NULL`
  array;
* `fillDevices capacity`: status, value of `num_devices` after the call, and the
  handles written from the start of the array, for the call with an array and
  `num_devices = capacity` on entry;
* `properties dev`: the structure written by `vkGetPhysicalDeviceProperties`;
* `countQueueFamilies dev`: `q_families_count` after the call with a `NULL` array;
* `fillQueueFamilies dev capacity`: `q_families_count` after the call with an
  array, and the elements written from the start of the array.

`vkGetPhysicalDeviceFeatures` writes a structure that `main` never reads. -/
structure Driver where
  vkCreateInstance : Int × Nat
  countDevices : Int × Nat
  fillDevices : Nat → Int × Nat × List Nat
  properties : Nat → VkPhysicalDeviceProperties
  countQueueFamilies : Nat → Nat
  fillQueueFamilies : Nat → Nat → Nat × List VkQueueFamilyProperties

/-- Element `i` of an automatic array of `len` elements of which the loader has
written the leading elements `written`: `none` when `i` is outside the array or
the element was never written, in which case reading it is undefined. -/
def readSlot {α : Type} (len : Nat) (written : List α) (i : Nat) : Option α :=
  if i < len then written.get? i else none

/-! ## The program -/

/-- The value of `app_info` when `vkCreateInstance` is called. -/
def app_info : VkApplicationInfo :=
  { sType := VK_STRUCTURE_TYPE_APPLICATION_INFO
    pApplicationName := "Dynamic Loader"
    applicationVersion := VK_MAKE_VERSION 1 0 0
    pEngineName := "No Engine"
    engineVersion := VK_MAKE_VERSION 1 0 0
    apiVersion := VK_API_VERSION_1_0 }

/-- The value of `create_info` when `vkCreateInstance` is called. -/
def create_info : VkInstanceCreateInfo :=
  { sType := VK_STRUCTURE_TYPE_INSTANCE_CREATE_INFO
    flags := 0
    pApplicationInfo := app_info
    enabledLayerCount := 0
    enabledExtensionCount := 0 }

/-- The body of the loop over `j` for one queue family `q`: lines 259 to 278. -/
def queueFamilyBody (j : Nat) (q : VkQueueFamilyProperties) : List Event :=
  [ Event.printf "  Queue family %u\n" [Arg.num j],
    Event.printf "    Number of queues: %u\n" [Arg.num q.queueCount],
    Event.printf "    Flags:" [] ] ++
  (decodeQueueFlags q.queueFlags).map (fun name => Event.printf name []) ++
  [ Event.printf "\n" [] ]

/-- The loop `for(uint32_t j = 0; j < q_families_count; j++)`, entered at index `j`
with `remaining = q_families_count - j` iterations left, over the array
`q_fam_props` of `len` elements with leading elements `written`. The flag is
`false` when the loop stops at an undefined read of `q_fam_props[j]`. -/
def queueFamilyLoop (len : Nat) (written : List VkQueueFamilyProperties) :
    Nat → Nat → List Event × Bool
  | 0, _ => ([], true)
  | remaining + 1, j =>
    match readSlot len written j with
    | none => ([], false)
    | some q =>
      let rest := queueFamilyLoop len written remaining (j + 1)
      (queueFamilyBody j q ++ rest.1, rest.2)

/-- Lines 182 to 244 of the device loop: the properties query and what is printed
from `dev_properties`. -/
def printProperties (d : Driver) (i dev : Nat) : List Event :=
  let dev_properties := d.properties dev
  [ Event.printf "\n== Physical device %u ==\n" [Arg.num i],
    Event.vkGetPhysicalDeviceProperties dev,
    Event.printf "Name: %s\n" [Arg.str dev_properties.deviceName],
    Event.printf "Type: " [],
    Event.printf (deviceTypeName dev_properties.deviceType) [],
    Event.printf "Vulkan API: %u.%u.%u (variant %u)\n"
      [ Arg.num (VK_API_VERSION_MAJOR dev_properties.apiVersion),
        Arg.num (VK_API_VERSION_MINOR dev_properties.apiVersion),
        Arg.num (VK_API_VERSION_PATCH dev_properties.apiVersion),
        Arg.num (VK_API_VERSION_VARIANT dev_properties.apiVersion) ],
    Event.printf "Driver version: %u\n" [Arg.num dev_properties.driverVersion],
    Event.printf "Vendor ID: %x" [Arg.num dev_properties.vendorID] ] ++
  (match lookup dev_properties.vendorID with
    | some vendor_name => [Event.printf " (%s)" [Arg.str vendor_name]]
    | none => []) ++
  [ Event.printf "\n" [],
    Event.printf "Device ID: %x\n" [Arg.num dev_properties.deviceID],
    Event.printf "Some of the device limits:\n" [],
    Event.printf "  maxImageDimension1D: %u\n" [Arg.num dev_properties.limits.maxImageDimension1D],
    Event.printf "  maxImageDimension2D: %u\n" [Arg.num dev_properties.limits.maxImageDimension2D],
    Event.printf "  maxImageDimension3D: %u\n" [Arg.num dev_properties.limits.maxImageDimension3D],
    Event.printf "  maxImageDimensionCube: %u\n"
      [Arg.num dev_properties.limits.maxImageDimensionCube],
    Event.printf "  maxTexelBufferElements: %u\n"
      [Arg.num dev_properties.limits.maxTexelBufferElements],
    Event.printf "  sparseAddressSpaceSize: %lu\n"
      [Arg.num dev_properties.limits.sparseAddressSpaceSize],
    Event.printf "  maxGeometryOutputVertices: %u\n"
      [Arg.num dev_properties.limits.maxGeometryOutputVertices],
    Event.printf "  maxViewportDimensions: %u x %u\n"
      [ Arg.num dev_properties.limits.maxViewportDimensions.1,
        Arg.num dev_properties.limits.maxViewportDimensions.2 ],
    Event.printf "  maxFramebufferWidth: %u\n" [Arg.num dev_properties.limits.maxFramebufferWidth],
    Event.printf "  maxFramebufferHeight: %u\n"
      [Arg.num dev_properties.limits.maxFramebufferHeight],
    Event.printf "  pointSizeRange: [%f, %f]\n"
      [ Arg.flt dev_properties.limits.pointSizeRange.1,
        Arg.flt dev_properties.limits.pointSizeRange.2 ],
    Event.printf "  pointSizeGranularity: %f\n"
      [Arg.flt dev_properties.limits.pointSizeGranularity],
    Event.printf "  lineWidthRange: [%f, %f]\n"
      [ Arg.flt dev_properties.limits.lineWidthRange.1,
        Arg.flt dev_properties.limits.lineWidthRange.2 ],
    Event.printf "  lineWidthGranularity: %f\n"
      [Arg.flt dev_properties.limits.lineWidthGranularity] ]

/-- The body of the device loop for index `i`, `dev` being the value read from
`p_phys_devices[i]`: lines 182 to 279. The flag is `false` when the body stops at an
undefined read of `q_fam_props[j]`. -/
def inspectDevice (d : Driver) (i dev : Nat) : List Event × Bool :=
  let q_families_count := d.countQueueFamilies dev
  let filled := d.fillQueueFamilies dev q_families_count
  let families := queueFamilyLoop q_families_count filled.2 filled.1 0
  (printProperties d i dev ++
    [ Event.vkGetPhysicalDeviceFeatures dev,
      Event.vkGetPhysicalDeviceQueueFamilyProperties dev 0 none,
      Event.printf "\nNumber of queue families: %u\n" [Arg.num q_families_count],
      Event.vkGetPhysicalDeviceQueueFamilyProperties dev q_families_count
        (some q_families_count) ] ++
    families.1,
   families.2)

/-- The loop `for(uint32_t i = 0; i < num_devices; i++)`, entered at index `i` with
`remaining = num_devices - i` iterations left, over the array `p_phys_devices` of
`len` elements with leading elements `written`. The flag is `false` when the loop
stops at an undefined read. -/
def deviceLoop (d : Driver) (len : Nat) (written : List Nat) :
    Nat → Nat → List Event × Bool
  | 0, _ => ([], true)
  | remaining + 1, i =>
    match readSlot len written i with
    | none => ([], false)
    | some dev =>
      let body := inspectDevice d i dev
      if body.2 then
        let rest := deviceLoop d len written remaining (i + 1)
        (body.1 ++ rest.1, rest.2)
      else (body.1, false)

/-- The function `main`: the events of the run in program order, and the value
returned, `none` when the run reaches an undefined read of one of the two
arrays. -/
def main (d : Driver) : List Event × Option Int :=
  let created := [Event.vkCreateInstance create_info]
  if d.vkCreateInstance.1 ≠ VK_SUCCESS then
    (created ++ [Event.printf "Could not create Vulkan instance!\n" []], some (-1000))
  else
    let vk_instance := d.vkCreateInstance.2
    let counted := created ++
      [ Event.printf "Vulkan instance created\n" [],
        Event.vkEnumeratePhysicalDevices vk_instance 0 none ]
    if d.countDevices.1 ≠ VK_SUCCESS then
      (counted ++ [Event.printf "Could get the number of physical devices\n" []], some (-1000))
    else
      let num_devices := d.countDevices.2
      if num_devices = 0 then
        (counted ++ [Event.printf "0 physical devices found\n" []], some (-1000))
      else
        let filled := d.fillDevices num_devices
        let enumerated := counted ++
          [ Event.printf "Found %d physical device%s\n"
              [Arg.num num_devices, Arg.str (if num_devices > 1 then "s" else "")],
            Event.vkEnumeratePhysicalDevices vk_instance num_devices (some num_devices) ]
        if filled.1 ≠ VK_SUCCESS then
          (enumerated ++ [Event.printf "Could not enumerate physical devices\n" []],
            some (-1000))
        else
          let devices := deviceLoop d num_devices filled.2.2 filled.2.1 0
          if devices.2 then
            if vk_instance ≠ VK_NULL_HANDLE then
              (enumerated ++ devices.1 ++
                [ Event.vkDestroyInstance vk_instance,
                  Event.printf "\nVulkan instance destroyed\n" [] ],
               some 0)
            else (enumerated ++ devices.1, some 0)
          else (enumerated ++ devices.1, none)

/-! ## Observations on a run -/

/-- Is the event a call of `vkDestroyInstance`? -/
def Event.isDestroy : Event → Bool
  | Event.vkDestroyInstance _ => true
  | _ => false

/-- Is the event a call of `vkEnumeratePhysicalDevices`? -/
def Event.isEnumeration : Event → Bool
  | Event.vkEnumeratePhysicalDevices _ _ _ => true
  | _ => false

/-- Is the event one of the per-device queries (properties, features, queue
families)? -/
def Event.isInspection : Event → Bool
  | Event.vkGetPhysicalDeviceProperties _ => true
  | Event.vkGetPhysicalDeviceFeatures _ => true
  | Event.vkGetPhysicalDeviceQueueFamilyProperties _ _ _ => true
  | _ => false

/-- Is the event the `printf` of line 182, which opens the report of a device? -/
def Event.isDeviceReport : Event → Bool
  | Event.printf fmt _ => fmt == "\n== Physical device %u ==\n"
  | _ => false

/-- Is the event the `printf` of line 259, which opens the report of a queue
family? -/
def Event.isQueueFamilyReport : Event → Bool
  | Event.printf fmt _ => fmt == "  Queue family %u\n"
  | _ => false

/-- The number of calls of `vkDestroyInstance` in a run. -/
def destroyCalls (t : List Event) : Nat := t.countP Event.isDestroy

/-- The number of calls of `vkEnumeratePhysicalDevices` in a run. -/
def enumerationCalls (t : List Event) : Nat := t.countP Event.isEnumeration

/-- The number of per-device queries in a run. -/
def inspectionCalls (t : List Event) : Nat := t.countP Event.isInspection

/-- The number of device reports in the output of a run. -/
def deviceReports (t : List Event) : Nat := t.countP Event.isDeviceReport

/-- The number of queue family reports in the output of a run. -/
def queueFamilyReports (t : List Event) : Nat := t.countP Event.isQueueFamilyReport

/-- The handles passed to `vkGetPhysicalDeviceProperties`, in call order. -/
def propertiesQueried (t : List Event) : List Nat :=
  t.filterMap (fun e => match e with
    | Event.vkGetPhysicalDeviceProperties dev => some dev
    | _ => none)

/-- The handles passed to `vkGetPhysicalDeviceFeatures`, in call order. -/
def featuresQueried (t : List Event) : List Nat :=
  t.filterMap (fun e => match e with
    | Event.vkGetPhysicalDeviceFeatures dev => some dev
    | _ => none)

/-- The calls of `vkGetPhysicalDeviceQueueFamilyProperties`, in call order: handle,
count on entry and array. -/
def queueFamiliesQueried (t : List Event) : List (Nat × Nat × Option Nat) :=
  t.filterMap (fun e => match e with
    | Event.vkGetPhysicalDeviceQueueFamilyProperties dev count buf => some (dev, count, buf)
    | _ => none)

/-- The calls of `vkEnumeratePhysicalDevices`, in call order: instance, count on
entry and array. -/
def devicesEnumerated (t : List Event) : List (Nat × Nat × Option Nat) :=
  t.filterMap (fun e => match e with
    | Event.vkEnumeratePhysicalDevices vk_instance count buf => some (vk_instance, count, buf)
    | _ => none)

/-- The values of `i` printed by line 182, in order: the indices at which the device
loop reads `p_phys_devices`. -/
def deviceIndices (t : List Event) : List Nat :=
  t.filterMap (fun e => match e with
    | Event.printf fmt [Arg.num i] =>
      if fmt = "\n== Physical device %u ==\n" then some i else none
    | _ => none)

/-- The values of `j` printed by line 259, in order: the indices at which the queue
family loop reads `q_fam_props`. -/
def queueFamilyIndices (t : List Event) : List Nat :=
  t.filterMap (fun e => match e with
    | Event.printf fmt [Arg.num j] => if fmt = "  Queue family %u\n" then some j else none
    | _ => none)

/-- The last event of a run. -/
def lastEvent (t : List Event) : Option Event := t.getLast?

/-! ## Assumptions on the loader -/

/-- The call `vkCreateInstance` succeeded: it returned `VK_SUCCESS` and stored a
valid (non-null) handle. -/
def Driver.openSucceeds (d : Driver) : Prop :=
  d.vkCreateInstance.1 = VK_SUCCESS ∧ d.vkCreateInstance.2 ≠ VK_NULL_HANDLE

/-- The fill-phase call of `vkEnumeratePhysicalDevices` with capacity `n` writes at
most `n` handles and sets the count to the number of handles written. -/
def Driver.devicesWithinCapacity (d : Driver) (n : Nat) : Prop :=
  (d.fillDevices n).2.2.length ≤ n ∧ (d.fillDevices n).2.1 = (d.fillDevices n).2.2.length

/-- The fill-phase call of `vkGetPhysicalDeviceQueueFamilyProperties` for `dev`, with
the capacity obtained from the count-phase call, writes at most that many elements
and sets the count to the number of elements written. -/
def Driver.familiesWithinCapacity (d : Driver) (dev : Nat) : Prop :=
  (d.fillQueueFamilies dev (d.countQueueFamilies dev)).2.length ≤ d.countQueueFamilies dev ∧
  (d.fillQueueFamilies dev (d.countQueueFamilies dev)).1 =
    (d.fillQueueFamilies dev (d.countQueueFamilies dev)).2.length

/-! ## Sample loaders -/

/-- Sample limits. -/
def sampleLimits : VkPhysicalDeviceLimits :=
  { maxImageDimension1D := 16384
    maxImageDimension2D := 16384
    maxImageDimension3D := 2048
    maxImageDimensionCube := 16384
    maxTexelBufferElements := 134217728
    sparseAddressSpaceSize := 1099511627776
    maxGeometryOutputVertices := 1024
    maxViewportDimensions := (16384, 16384)
    maxFramebufferWidth := 16384
    maxFramebufferHeight := 16384
    pointSizeRange := (0x3F800000, 0x42800000)
    pointSizeGranularity := 0x3E000000
    lineWidthRange := (0x3F800000, 0x41000000)
    lineWidthGranularity := 0x3E000000 }

/-- Sample properties: a discrete Nvidia GPU for handle 10, a CPU device of an
unlisted vendor otherwise. -/
def sampleProperties (dev : Nat) : VkPhysicalDeviceProperties :=
  if dev = 10 then
    { apiVersion := 4206592, driverVersion := 1, vendorID := 0x10DE, deviceID := 0x1C03,
      deviceType := VK_PHYSICAL_DEVICE_TYPE_DISCRETE_GPU, deviceName := "GPU",
      limits := sampleLimits }
  else
    { apiVersion := 4194304, driverVersion := 1, vendorID := 0x9999, deviceID := 0,
      deviceType := VK_PHYSICAL_DEVICE_TYPE_CPU, deviceName := "CPU",
      limits := sampleLimits }

/-- A loader with two devices, handles 10 and 11, the first with two queue families
and the second with one; `vkCreateInstance` stores the handle 1. -/
def driverTwoDevices : Driver :=
  { vkCreateInstance := (0, 1)
    countDevices := (0, 2)
    fillDevices := fun capacity => (0, min capacity 2, [10, 11].take capacity)
    properties := sampleProperties
    countQueueFamilies := fun dev => if dev = 10 then 2 else 1
    fillQueueFamilies := fun dev capacity =>
      (min capacity (if dev = 10 then 2 else 1),
        (if dev = 10 then [⟨0xF, 16⟩, ⟨0x4, 2⟩] else [⟨0x2, 1⟩]).take capacity) }

/-- A loader that refuses the instance (`VK_ERROR_INCOMPATIBLE_DRIVER`, -9). -/
def driverOpenFails : Driver :=
  { driverTwoDevices with vkCreateInstance := (-9, 0) }

/-- A loader whose count-phase call fails (`VK_ERROR_INITIALIZATION_FAILED`, -3). -/
def driverCountFails : Driver :=
  { driverTwoDevices with countDevices := (-3, 0) }

/-- A loader that reports zero physical devices. -/
def driverZeroDevices : Driver :=
  { driverTwoDevices with
    countDevices := (0, 0)
    fillDevices := fun _ => (0, 0, []) }

/-- A loader whose fill-phase call fails (`VK_ERROR_OUT_OF_HOST_MEMORY`, -1). -/
def driverFillFails : Driver :=
  { driverTwoDevices with fillDevices := fun _ => (-1, 0, []) }

/-! ## Definitions used by the statements and proofs -/

/-- The name of the first entry of a table with a given id, by recursion on the
list: the specification the index loop is compared with. -/
def firstMatch (tbl : List VendorEntry) (vendorID : Nat) : Option String :=
  (tbl.find? (fun e => decide (e.vendor_id = vendorID))).map (fun e => e.vendor_name)

/-- What is observed of a part of a run that contains neither a report header nor a
call into the loader. -/
def Quiet (t : List Event) : Prop :=
  deviceReports t = 0 ∧ queueFamilyReports t = 0 ∧ destroyCalls t = 0 ∧
  propertiesQueried t = [] ∧ featuresQueried t = [] ∧ queueFamiliesQueried t = [] ∧
  devicesEnumerated t = [] ∧ deviceIndices t = [] ∧ queueFamilyIndices t = []

/-! ## Lemmas on the vendor scan -/

theorem vendorScan_eq_drop (tbl : List VendorEntry) (vendorID : Nat) :
    ∀ remaining i, i + remaining = tbl.length →
      vendorScan tbl vendorID remaining i = firstMatch (tbl.drop i) vendorID := by
  intro remaining
  induction remaining with
  | zero =>
    intro i hi
    have h : tbl.drop i = [] := List.drop_eq_nil_of_le (by omega)
    simp [vendorScan, firstMatch, h]
  | succ k ih =>
    intro i hi
    have hlt : i < tbl.length := by omega
    have hd : tbl.drop i = tbl[i] :: tbl.drop (i + 1) := by
      simp
    have hg : tbl.get? i = some tbl[i] := by
      simp [List.getElem?_eq_getElem hlt]
    rw [vendorScan, hg, firstMatch, hd]
    by_cases hv : tbl[i].vendor_id = vendorID
    · rw [List.find?_cons_of_pos _ (by simpa using hv)]
      simp only [hv, if_true, Option.map_some']
    · rw [List.find?_cons_of_neg _ (by simpa using hv)]
      simp only [hv, if_false]
      rw [ih (i + 1) (by omega), firstMatch]

theorem lookupIn_eq_firstMatch (tbl : List VendorEntry) (vendorID : Nat) :
    lookupIn tbl vendorID = firstMatch tbl vendorID := by
  have h := vendorScan_eq_drop tbl vendorID tbl.length 0 (by simp)
  simpa [lookupIn] using h

theorem lookupIn_eq_some_iff (tbl : List VendorEntry) (vendorID : Nat) (name : String) :
    lookupIn tbl vendorID = some name ↔
      ∃ before e after, tbl = before ++ e :: after ∧ e.vendor_id = vendorID ∧
        e.vendor_name = name ∧ ∀ x ∈ before, x.vendor_id ≠ vendorID := by
  rw [lookupIn_eq_firstMatch, firstMatch, Option.map_eq_some']
  constructor
  · rintro ⟨e, he, hn⟩
    rw [List.find?_eq_some] at he
    obtain ⟨hp, as, bs, hsplit, hbefore⟩ := he
    refine ⟨as, e, bs, hsplit, by simpa using hp, hn, ?_⟩
    intro x hx
    simpa using hbefore x hx
  · rintro ⟨as, e, bs, hsplit, hid, hn, hbefore⟩
    refine ⟨e, ?_, hn⟩
    rw [List.find?_eq_some]
    refine ⟨by simpa using hid, as, bs, hsplit, ?_⟩
    intro x hx
    simpa using hbefore x hx

theorem lookupIn_eq_none_iff (tbl : List VendorEntry) (vendorID : Nat) :
    lookupIn tbl vendorID = none ↔ ∀ e ∈ tbl, e.vendor_id ≠ vendorID := by
  rw [lookupIn_eq_firstMatch, firstMatch, Option.map_eq_none', List.find?_eq_none]
  simp

theorem lookupIn_of_nodup (tbl : List VendorEntry)
    (hnd : (tbl.map (fun e => e.vendor_id)).Nodup) (vendorID : Nat) (name : String) :
    lookupIn tbl vendorID = some name ↔ (⟨vendorID, name⟩ : VendorEntry) ∈ tbl := by
  rw [lookupIn_eq_some_iff]
  constructor
  · rintro ⟨as, e, bs, hsplit, hid, hn, -⟩
    subst hsplit
    have he : e = ⟨vendorID, name⟩ := by cases e; simp_all
    simp [← he]
  · intro hmem
    obtain ⟨as, bs, hsplit⟩ := List.append_of_mem hmem
    refine ⟨as, ⟨vendorID, name⟩, bs, hsplit, rfl, rfl, ?_⟩
    intro x hx hxid
    subst hsplit
    rw [List.map_append, List.map_cons, List.nodup_append] at hnd
    obtain ⟨-, -, hdisj⟩ := hnd
    exact hdisj (List.mem_map_of_mem _ hx)
      (by rw [hxid]; exact List.mem_cons_self _ _)

theorem and_two_pow_ne_zero_iff (f k : Nat) : f &&& 2 ^ k ≠ 0 ↔ f.testBit k = true := by
  constructor
  · intro h
    by_contra hb
    apply h
    apply Nat.eq_of_testBit_eq
    intro i
    rw [Nat.testBit_and, Nat.testBit_two_pow, Nat.zero_testBit]
    by_cases hk : k = i
    · subst hk
      simp [hb]
    · simp [hk]
  · intro hb h0
    have h1 : (f &&& 2 ^ k).testBit k = true := by
      rw [Nat.testBit_and, Nat.testBit_two_pow, hb]
      simp
    rw [h0, Nat.zero_testBit] at h1
    exact Bool.noConfusion h1

theorem mem_flagName_iff (f k : Nat) (name x : String) :
    x ∈ flagName f (2 ^ k) name ↔ x = name ∧ f.testBit k = true := by
  unfold flagName
  by_cases h : f &&& 2 ^ k ≠ 0
  · have hb := (and_two_pow_ne_zero_iff f k).1 h
    simp [h, hb]
  · have hb : ¬ f.testBit k = true := fun hb => h ((and_two_pow_ne_zero_iff f k).2 hb)
    simp [h, hb]

theorem flagName_mask (f k : Nat) (hk : k < 7) (name : String) :
    flagName (f &&& 0x7F) (2 ^ k) name = flagName f (2 ^ k) name := by
  have h : (f &&& 0x7F) &&& 2 ^ k = f &&& 2 ^ k := by
    rw [Nat.and_assoc]
    congr 1
    interval_cases k <;> decide
  unfold flagName
  rw [h]

/-! ## Claims on the pure parts -/

/-- Claim C3: the vendor lookup of `main` is defined for every vendor id (a fortiori
for every 32-bit one); it yields a name exactly when that name is the name of the
first table entry whose id equals the given id, and yields nothing exactly when no
entry has that id; it maps 0x10DE to "Nvidia" and 0x9999 to nothing. -/
theorem C3_lookup_first_exact_match :
    (∀ vendorID : Nat, ∀ name : String, lookup vendorID = some name ↔
      ∃ before e after, vendors = before ++ e :: after ∧ e.vendor_id = vendorID ∧
        e.vendor_name = name ∧ ∀ x ∈ before, x.vendor_id ≠ vendorID) ∧
    (∀ vendorID : Nat, lookup vendorID = none ↔ ∀ e ∈ vendors, e.vendor_id ≠ vendorID) ∧
    lookup 0x10DE = some "Nvidia" ∧ lookup 0x9999 = none :=
  ⟨fun v n => lookupIn_eq_some_iff vendors v n, fun v => lookupIn_eq_none_iff vendors v,
    by decide, by decide⟩

theorem mem_decodeQueueFlags_iff (f : Nat) (x : String) :
    x ∈ decodeQueueFlags f ↔
      (x = " VK_QUEUE_GRAPHICS_BIT" ∧ f.testBit 0 = true) ∨
      (x = " VK_QUEUE_COMPUTE_BIT" ∧ f.testBit 1 = true) ∨
      (x = " VK_QUEUE_TRANSFER_BIT" ∧ f.testBit 2 = true) ∨
      (x = " VK_QUEUE_SPARSE_BINDING_BIT" ∧ f.testBit 3 = true) ∨
      (x = " VK_QUEUE_PROTECTED_BIT" ∧ f.testBit 4 = true) ∨
      (x = " VK_QUEUE_VIDEO_DECODE_BIT_KHR" ∧ f.testBit 5 = true) ∨
      (x = " VK_QUEUE_VIDEO_ENCODE_BIT_KHR" ∧ f.testBit 6 = true) := by
  have h0 : VK_QUEUE_GRAPHICS_BIT = 2 ^ 0 := rfl
  have h1 : VK_QUEUE_COMPUTE_BIT = 2 ^ 1 := rfl
  have h2 : VK_QUEUE_TRANSFER_BIT = 2 ^ 2 := rfl
  have h3 : VK_QUEUE_SPARSE_BINDING_BIT = 2 ^ 3 := rfl
  have h4 : VK_QUEUE_PROTECTED_BIT = 2 ^ 4 := rfl
  have h5 : VK_QUEUE_VIDEO_DECODE_BIT_KHR = 2 ^ 5 := rfl
  have h6 : VK_QUEUE_VIDEO_ENCODE_BIT_KHR = 2 ^ 6 := rfl
  unfold decodeQueueFlags
  rw [h0, h1, h2, h3, h4, h5, h6]
  simp only [List.mem_append, mem_flagName_iff, or_assoc]

/-- Claim C4: for every value of `queueFlags` (a fortiori every 32-bit one) each of
the seven capability names is printed by the flag chain exactly when its bit (bit 0
for graphics up to bit 6 for video encode) is set, and nothing else is printed by
it; the value 0 prints no name, graphics-or-compute prints exactly those two names,
and the bits above bit 6 do not change what is printed. The chain is a total
function: no value of `queueFlags` makes it fail. -/
theorem C4_decodeQueueFlags_bits (queueFlags : Nat) :
    (" VK_QUEUE_GRAPHICS_BIT" ∈ decodeQueueFlags queueFlags ↔ queueFlags.testBit 0 = true) ∧
    (" VK_QUEUE_COMPUTE_BIT" ∈ decodeQueueFlags queueFlags ↔ queueFlags.testBit 1 = true) ∧
    (" VK_QUEUE_TRANSFER_BIT" ∈ decodeQueueFlags queueFlags ↔ queueFlags.testBit 2 = true) ∧
    (" VK_QUEUE_SPARSE_BINDING_BIT" ∈ decodeQueueFlags queueFlags ↔
      queueFlags.testBit 3 = true) ∧
    (" VK_QUEUE_PROTECTED_BIT" ∈ decodeQueueFlags queueFlags ↔ queueFlags.testBit 4 = true) ∧
    (" VK_QUEUE_VIDEO_DECODE_BIT_KHR" ∈ decodeQueueFlags queueFlags ↔
      queueFlags.testBit 5 = true) ∧
    (" VK_QUEUE_VIDEO_ENCODE_BIT_KHR" ∈ decodeQueueFlags queueFlags ↔
      queueFlags.testBit 6 = true) ∧
    (∀ x ∈ decodeQueueFlags queueFlags, x ∈
      [" VK_QUEUE_GRAPHICS_BIT", " VK_QUEUE_COMPUTE_BIT", " VK_QUEUE_TRANSFER_BIT",
        " VK_QUEUE_SPARSE_BINDING_BIT", " VK_QUEUE_PROTECTED_BIT",
        " VK_QUEUE_VIDEO_DECODE_BIT_KHR", " VK_QUEUE_VIDEO_ENCODE_BIT_KHR"]) ∧
    decodeQueueFlags 0 = [] ∧
    decodeQueueFlags (VK_QUEUE_GRAPHICS_BIT ||| VK_QUEUE_COMPUTE_BIT) =
      [" VK_QUEUE_GRAPHICS_BIT", " VK_QUEUE_COMPUTE_BIT"] ∧
    decodeQueueFlags (VK_QUEUE_COMPUTE_BIT ||| VK_QUEUE_GRAPHICS_BIT) =
      [" VK_QUEUE_GRAPHICS_BIT", " VK_QUEUE_COMPUTE_BIT"] ∧
    decodeQueueFlags queueFlags = decodeQueueFlags (queueFlags &&& 0x7F) := by
  refine ⟨?_, ?_, ?_, ?_, ?_, ?_, ?_, ?_, by decide, by decide, by decide, ?_⟩
  · rw [mem_decodeQueueFlags_iff]; simp +decide
  · rw [mem_decodeQueueFlags_iff]; simp +decide
  · rw [mem_decodeQueueFlags_iff]; simp +decide
  · rw [mem_decodeQueueFlags_iff]; simp +decide
  · rw [mem_decodeQueueFlags_iff]; simp +decide
  · rw [mem_decodeQueueFlags_iff]; simp +decide
  · rw [mem_decodeQueueFlags_iff]; simp +decide
  · intro x hx
    rw [mem_decodeQueueFlags_iff] at hx
    simp only [List.mem_cons, List.mem_singleton]
    tauto
  · have h0 : VK_QUEUE_GRAPHICS_BIT = 2 ^ 0 := rfl
    have h1 : VK_QUEUE_COMPUTE_BIT = 2 ^ 1 := rfl
    have h2 : VK_QUEUE_TRANSFER_BIT = 2 ^ 2 := rfl
    have h3 : VK_QUEUE_SPARSE_BINDING_BIT = 2 ^ 3 := rfl
    have h4 : VK_QUEUE_PROTECTED_BIT = 2 ^ 4 := rfl
    have h5 : VK_QUEUE_VIDEO_DECODE_BIT_KHR = 2 ^ 5 := rfl
    have h6 : VK_QUEUE_VIDEO_ENCODE_BIT_KHR = 2 ^ 6 := rfl
    unfold decodeQueueFlags
    rw [h0, h1, h2, h3, h4, h5, h6]
    rw [flagName_mask _ 0 (by decide), flagName_mask _ 1 (by decide),
      flagName_mask _ 2 (by decide), flagName_mask _ 3 (by decide),
      flagName_mask _ 4 (by decide), flagName_mask _ 5 (by decide),
      flagName_mask _ 6 (by decide)]

/-- Claim C5: the switch on `deviceType` prints "Other", "Integrated GPU",
"Discrete GPU", "Virtual GPU" and "CPU" for the values 0, 1, 2, 3 and 4; these five
outputs are pairwise different and none is "Unknown"; every value of `deviceType`
prints one of the six outputs, and prints "Unknown" exactly when it is not one of
the five known values. -/
theorem C5_deviceType_exhaustive :
    deviceTypeName VK_PHYSICAL_DEVICE_TYPE_OTHER = "Other\n" ∧
    deviceTypeName VK_PHYSICAL_DEVICE_TYPE_INTEGRATED_GPU = "Integrated GPU\n" ∧
    deviceTypeName VK_PHYSICAL_DEVICE_TYPE_DISCRETE_GPU = "Discrete GPU\n" ∧
    deviceTypeName VK_PHYSICAL_DEVICE_TYPE_VIRTUAL_GPU = "Virtual GPU\n" ∧
    deviceTypeName VK_PHYSICAL_DEVICE_TYPE_CPU = "CPU\n" ∧
    [ VK_PHYSICAL_DEVICE_TYPE_OTHER, VK_PHYSICAL_DEVICE_TYPE_INTEGRATED_GPU,
      VK_PHYSICAL_DEVICE_TYPE_DISCRETE_GPU, VK_PHYSICAL_DEVICE_TYPE_VIRTUAL_GPU,
      VK_PHYSICAL_DEVICE_TYPE_CPU ] = [0, 1, 2, 3, 4] ∧
    ["Other\n", "Integrated GPU\n", "Discrete GPU\n", "Virtual GPU\n", "CPU\n",
      "Unknown\n"].Nodup ∧
    (∀ deviceType : Nat, deviceTypeName deviceType ∈
      ["Other\n", "Integrated GPU\n", "Discrete GPU\n", "Virtual GPU\n", "CPU\n",
        "Unknown\n"]) ∧
    (∀ deviceType : Nat, deviceTypeName deviceType = "Unknown\n" ↔
      deviceType ∉ [0, 1, 2, 3, 4]) := by
  refine ⟨by decide, by decide, by decide, by decide, by decide, by decide, by decide, ?_, ?_⟩
  · intro t
    unfold deviceTypeName
    split_ifs <;> simp
  · intro t
    unfold deviceTypeName VK_PHYSICAL_DEVICE_TYPE_OTHER VK_PHYSICAL_DEVICE_TYPE_INTEGRATED_GPU
      VK_PHYSICAL_DEVICE_TYPE_DISCRETE_GPU VK_PHYSICAL_DEVICE_TYPE_VIRTUAL_GPU
      VK_PHYSICAL_DEVICE_TYPE_CPU
    split_ifs <;> simp_all +decide

/-- Claim C9: the ids of the table `vendors` are pairwise different; the lookup of
the id of any entry yields the name of that entry; and scanning any permutation of
the table yields, for every vendor id, what scanning the table yields. -/
theorem C9_vendor_order_immaterial :
    (vendors.map (fun e => e.vendor_id)).Nodup ∧
    (∀ e ∈ vendors, lookup e.vendor_id = some e.vendor_name) ∧
    (∀ tbl : List VendorEntry, tbl.Perm vendors →
      ∀ vendorID : Nat, lookupIn tbl vendorID = lookup vendorID) := by
  have hnd : (vendors.map (fun e => e.vendor_id)).Nodup := by decide
  refine ⟨hnd, ?_, ?_⟩
  · intro e he
    exact (lookupIn_of_nodup vendors hnd e.vendor_id e.vendor_name).2 he
  · intro tbl hp v
    have hnd2 : (tbl.map (fun e => e.vendor_id)).Nodup :=
      ((hp.map (fun e => e.vendor_id)).nodup_iff).2 hnd
    apply Option.ext
    intro name
    show lookupIn tbl v = some name ↔ lookupIn vendors v = some name
    rw [lookupIn_of_nodup tbl hnd2, lookupIn_of_nodup vendors hnd]
    exact hp.mem_iff

/-! ## Lemmas on the loops -/

theorem decodeQueueFlags_not_report (f : Nat) (name : String)
    (h : name ∈ decodeQueueFlags f) :
    name ≠ "\n== Physical device %u ==\n" ∧ name ≠ "  Queue family %u\n" := by
  rw [mem_decodeQueueFlags_iff] at h
  rcases h with h | h | h | h | h | h | h <;> (rw [h.1]; decide)

theorem deviceTypeName_not_report (t : Nat) :
    deviceTypeName t ≠ "\n== Physical device %u ==\n" ∧
      deviceTypeName t ≠ "  Queue family %u\n" := by
  unfold deviceTypeName
  split_ifs <;> decide

theorem deviceReports_append (a b : List Event) :
    deviceReports (a ++ b) = deviceReports a + deviceReports b :=
  List.countP_append _ a b

theorem queueFamilyReports_append (a b : List Event) :
    queueFamilyReports (a ++ b) = queueFamilyReports a + queueFamilyReports b :=
  List.countP_append _ a b

theorem destroyCalls_append (a b : List Event) :
    destroyCalls (a ++ b) = destroyCalls a + destroyCalls b :=
  List.countP_append _ a b

theorem propertiesQueried_append (a b : List Event) :
    propertiesQueried (a ++ b) = propertiesQueried a ++ propertiesQueried b :=
  List.filterMap_append a b _

theorem featuresQueried_append (a b : List Event) :
    featuresQueried (a ++ b) = featuresQueried a ++ featuresQueried b :=
  List.filterMap_append a b _

theorem queueFamiliesQueried_append (a b : List Event) :
    queueFamiliesQueried (a ++ b) = queueFamiliesQueried a ++ queueFamiliesQueried b :=
  List.filterMap_append a b _

theorem devicesEnumerated_append (a b : List Event) :
    devicesEnumerated (a ++ b) = devicesEnumerated a ++ devicesEnumerated b :=
  List.filterMap_append a b _

theorem deviceIndices_append (a b : List Event) :
    deviceIndices (a ++ b) = deviceIndices a ++ deviceIndices b :=
  List.filterMap_append a b _

theorem queueFamilyIndices_append (a b : List Event) :
    queueFamilyIndices (a ++ b) = queueFamilyIndices a ++ queueFamilyIndices b :=
  List.filterMap_append a b _

theorem flagEvents_quiet (f : Nat) :
    Quiet ((decodeQueueFlags f).map (fun name => Event.printf name [])) := by
  refine ⟨?_, ?_, ?_, ?_, ?_, ?_, ?_, ?_, ?_⟩
  · rw [deviceReports, List.countP_eq_zero]
    intro e he
    obtain ⟨name, hn, rfl⟩ := List.mem_map.1 he
    simpa [Event.isDeviceReport] using (decodeQueueFlags_not_report _ _ hn).1
  · rw [queueFamilyReports, List.countP_eq_zero]
    intro e he
    obtain ⟨name, hn, rfl⟩ := List.mem_map.1 he
    simpa [Event.isQueueFamilyReport] using (decodeQueueFlags_not_report _ _ hn).2
  · rw [destroyCalls, List.countP_eq_zero]
    intro e he
    obtain ⟨name, hn, rfl⟩ := List.mem_map.1 he
    simp [Event.isDestroy]
  · simp [propertiesQueried, List.filterMap_map, List.filterMap_eq_nil_iff]
  · simp [featuresQueried, List.filterMap_map, List.filterMap_eq_nil_iff]
  · simp [queueFamiliesQueried, List.filterMap_map, List.filterMap_eq_nil_iff]
  · simp [devicesEnumerated, List.filterMap_map, List.filterMap_eq_nil_iff]
  · simp [deviceIndices, List.filterMap_map, List.filterMap_eq_nil_iff]
  · simp [queueFamilyIndices, List.filterMap_map, List.filterMap_eq_nil_iff]

theorem queueFamilyBody_observed (j : Nat) (q : VkQueueFamilyProperties) :
    queueFamilyReports (queueFamilyBody j q) = 1 ∧
    queueFamilyIndices (queueFamilyBody j q) = [j] ∧
    deviceReports (queueFamilyBody j q) = 0 ∧
    destroyCalls (queueFamilyBody j q) = 0 ∧
    propertiesQueried (queueFamilyBody j q) = [] ∧
    featuresQueried (queueFamilyBody j q) = [] ∧
    queueFamiliesQueried (queueFamilyBody j q) = [] ∧
    devicesEnumerated (queueFamilyBody j q) = [] ∧
    deviceIndices (queueFamilyBody j q) = [] := by
  obtain ⟨h1, h2, h3, h4, h5, h6, h7, h8, h9⟩ := flagEvents_quiet q.queueFlags
  simp only [queueFamilyBody, queueFamilyReports_append, queueFamilyIndices_append,
    deviceReports_append, destroyCalls_append, propertiesQueried_append,
    featuresQueried_append, queueFamiliesQueried_append, devicesEnumerated_append,
    deviceIndices_append, h1, h2, h3, h4, h5, h6, h7, h8, h9]
  exact ⟨rfl, rfl, rfl, rfl, rfl, rfl, rfl, rfl, rfl⟩

theorem printProperties_observed (d : Driver) (i dev : Nat) :
    deviceReports (printProperties d i dev) = 1 ∧
    deviceIndices (printProperties d i dev) = [i] ∧
    propertiesQueried (printProperties d i dev) = [dev] ∧
    queueFamilyReports (printProperties d i dev) = 0 ∧
    queueFamilyIndices (printProperties d i dev) = [] ∧
    destroyCalls (printProperties d i dev) = 0 ∧
    featuresQueried (printProperties d i dev) = [] ∧
    queueFamiliesQueried (printProperties d i dev) = [] ∧
    devicesEnumerated (printProperties d i dev) = [] := by
  have h1 := (deviceTypeName_not_report (d.properties dev).deviceType).1
  have h2 := (deviceTypeName_not_report (d.properties dev).deviceType).2
  refine ⟨?_, ?_, ?_, ?_, ?_, ?_, ?_, ?_, ?_⟩ <;>
    cases hl : lookup (d.properties dev).vendorID <;>
    simp [printProperties, hl, deviceReports, queueFamilyReports,
      destroyCalls, propertiesQueried, featuresQueried, queueFamiliesQueried,
      devicesEnumerated, deviceIndices, queueFamilyIndices, List.countP_cons,
      Event.isDeviceReport, Event.isQueueFamilyReport, Event.isDestroy, h1, h2]

theorem readSlot_append {α : Type} (len : Nat) (pre : List α) (x : α) (rest : List α)
    (h : (pre ++ x :: rest).length ≤ len) :
    readSlot len (pre ++ x :: rest) pre.length = some x := by
  have hlt : pre.length < len := by
    simp only [List.length_append, List.length_cons] at h
    omega
  unfold readSlot
  rw [if_pos hlt, List.get?_eq_getElem?, List.getElem?_append_right (Nat.le_refl _)]
  simp

theorem queueFamilyLoop_within (len : Nat) (rest : List VkQueueFamilyProperties) :
    ∀ pre : List VkQueueFamilyProperties, (pre ++ rest).length ≤ len →
      queueFamilyLoop len (pre ++ rest) rest.length pre.length =
        ((rest.enumFrom pre.length).flatMap (fun p => queueFamilyBody p.1 p.2), true) := by
  induction rest with
  | nil => intro pre _; simp [queueFamilyLoop]
  | cons q rest ih =>
    intro pre h
    have hr := readSlot_append len pre q rest h
    have hs : pre ++ q :: rest = (pre ++ [q]) ++ rest := by simp
    have ih2 := ih (pre ++ [q]) (by rw [← hs]; exact h)
    rw [← hs] at ih2
    simp only [List.length_append, List.length_singleton] at ih2
    simp only [List.length_cons, queueFamilyLoop, hr, ih2, List.enumFrom_cons,
      List.flatMap_cons]

theorem inspectDevice_within (d : Driver) (i dev : Nat)
    (h : d.familiesWithinCapacity dev) :
    inspectDevice d i dev =
      (printProperties d i dev ++
        [ Event.vkGetPhysicalDeviceFeatures dev,
          Event.vkGetPhysicalDeviceQueueFamilyProperties dev 0 none,
          Event.printf "\nNumber of queue families: %u\n"
            [Arg.num (d.countQueueFamilies dev)],
          Event.vkGetPhysicalDeviceQueueFamilyProperties dev (d.countQueueFamilies dev)
            (some (d.countQueueFamilies dev)) ] ++
        (d.fillQueueFamilies dev (d.countQueueFamilies dev)).2.enum.flatMap
          (fun p => queueFamilyBody p.1 p.2),
       true) := by
  obtain ⟨hlen, hcount⟩ := h
  have hq := queueFamilyLoop_within (d.countQueueFamilies dev)
    (d.fillQueueFamilies dev (d.countQueueFamilies dev)).2 [] (by simpa using hlen)
  simp only [List.nil_append, List.length_nil] at hq
  simp only [inspectDevice, hcount, hq, List.enum]

theorem deviceLoop_within (d : Driver) (len : Nat) (rest : List Nat) :
    ∀ pre : List Nat, (pre ++ rest).length ≤ len →
      (∀ dev ∈ rest, d.familiesWithinCapacity dev) →
      deviceLoop d len (pre ++ rest) rest.length pre.length =
        ((rest.enumFrom pre.length).flatMap (fun p => (inspectDevice d p.1 p.2).1), true) := by
  induction rest with
  | nil => intro pre _ _; simp [deviceLoop]
  | cons dev rest ih =>
    intro pre h hfam
    have hr := readSlot_append len pre dev rest h
    have hs : pre ++ dev :: rest = (pre ++ [dev]) ++ rest := by simp
    have ih2 := ih (pre ++ [dev]) (by rw [← hs]; exact h)
      (fun x hx => hfam x (List.mem_cons_of_mem _ hx))
    rw [← hs] at ih2
    simp only [List.length_append, List.length_singleton] at ih2
    have hb : (inspectDevice d pre.length dev).2 = true := by
      rw [inspectDevice_within d pre.length dev (hfam dev (List.mem_cons_self _ _))]
    simp only [List.length_cons, deviceLoop, hr, hb, ih2, List.enumFrom_cons,
      List.flatMap_cons, if_true]

theorem families_observed (l : List (Nat × VkQueueFamilyProperties)) :
    queueFamilyReports (l.flatMap (fun p => queueFamilyBody p.1 p.2)) = l.length ∧
    queueFamilyIndices (l.flatMap (fun p => queueFamilyBody p.1 p.2)) = l.map Prod.fst ∧
    deviceReports (l.flatMap (fun p => queueFamilyBody p.1 p.2)) = 0 ∧
    destroyCalls (l.flatMap (fun p => queueFamilyBody p.1 p.2)) = 0 ∧
    propertiesQueried (l.flatMap (fun p => queueFamilyBody p.1 p.2)) = [] ∧
    featuresQueried (l.flatMap (fun p => queueFamilyBody p.1 p.2)) = [] ∧
    queueFamiliesQueried (l.flatMap (fun p => queueFamilyBody p.1 p.2)) = [] ∧
    devicesEnumerated (l.flatMap (fun p => queueFamilyBody p.1 p.2)) = [] ∧
    deviceIndices (l.flatMap (fun p => queueFamilyBody p.1 p.2)) = [] := by
  induction l with
  | nil => exact ⟨rfl, rfl, rfl, rfl, rfl, rfl, rfl, rfl, rfl⟩
  | cons p l ih =>
    obtain ⟨i1, i2, i3, i4, i5, i6, i7, i8, i9⟩ := ih
    obtain ⟨c1, c2, c3, c4, c5, c6, c7, c8, c9⟩ := queueFamilyBody_observed p.1 p.2
    simp only [List.flatMap_cons, queueFamilyReports_append, queueFamilyIndices_append,
      deviceReports_append, destroyCalls_append, propertiesQueried_append,
      featuresQueried_append, queueFamiliesQueried_append, devicesEnumerated_append,
      deviceIndices_append, i1, i2, i3, i4, i5, i6, i7, i8, i9,
      c1, c2, c3, c4, c5, c6, c7, c8, c9, List.length_cons, List.map_cons,
      List.append_nil, List.singleton_append, Nat.add_zero, true_and, and_true]
    omega

theorem inspectDevice_observed (d : Driver) (i dev : Nat)
    (h : d.familiesWithinCapacity dev) :
    deviceReports (inspectDevice d i dev).1 = 1 ∧
    deviceIndices (inspectDevice d i dev).1 = [i] ∧
    propertiesQueried (inspectDevice d i dev).1 = [dev] ∧
    featuresQueried (inspectDevice d i dev).1 = [dev] ∧
    queueFamiliesQueried (inspectDevice d i dev).1 =
      [ (dev, 0, none),
        (dev, d.countQueueFamilies dev, some (d.countQueueFamilies dev)) ] ∧
    queueFamilyReports (inspectDevice d i dev).1 =
      (d.fillQueueFamilies dev (d.countQueueFamilies dev)).1 ∧
    queueFamilyIndices (inspectDevice d i dev).1 =
      List.range (d.fillQueueFamilies dev (d.countQueueFamilies dev)).1 ∧
    destroyCalls (inspectDevice d i dev).1 = 0 ∧
    devicesEnumerated (inspectDevice d i dev).1 = [] := by
  rw [inspectDevice_within d i dev h]
  obtain ⟨hp1, hp2, hp3, hp4, hp5, hp6, hp7, hp8, hp9⟩ := printProperties_observed d i dev
  obtain ⟨hf1, hf2, hf3, hf4, hf5, hf6, hf7, hf8, hf9⟩ :=
    families_observed (d.fillQueueFamilies dev (d.countQueueFamilies dev)).2.enum
  rw [List.enum_length, ← h.2] at hf1
  rw [List.enum_map_fst, ← h.2] at hf2
  simp only [queueFamilyReports_append, queueFamilyIndices_append,
    deviceReports_append, destroyCalls_append, propertiesQueried_append,
    featuresQueried_append, queueFamiliesQueried_append, devicesEnumerated_append,
    deviceIndices_append,
    hp1, hp2, hp3, hp4, hp5, hp6, hp7, hp8, hp9, hf1, hf2, hf3, hf4, hf5, hf6, hf7, hf8, hf9]
  have h0 : queueFamilyReports
      [ Event.vkGetPhysicalDeviceFeatures dev,
        Event.vkGetPhysicalDeviceQueueFamilyProperties dev 0 none,
        Event.printf "\nNumber of queue families: %u\n"
          [Arg.num (d.countQueueFamilies dev)],
        Event.vkGetPhysicalDeviceQueueFamilyProperties dev (d.countQueueFamilies dev)
          (some (d.countQueueFamilies dev)) ] = 0 := rfl
  have h1 : queueFamilyIndices
      [ Event.vkGetPhysicalDeviceFeatures dev,
        Event.vkGetPhysicalDeviceQueueFamilyProperties dev 0 none,
        Event.printf "\nNumber of queue families: %u\n"
          [Arg.num (d.countQueueFamilies dev)],
        Event.vkGetPhysicalDeviceQueueFamilyProperties dev (d.countQueueFamilies dev)
          (some (d.countQueueFamilies dev)) ] = [] := rfl
  rw [h0, h1]
  refine ⟨rfl, rfl, rfl, rfl, rfl, ?_, rfl, rfl, rfl⟩
  omega

theorem devices_observed (d : Driver) (l : List (Nat × Nat))
    (hfam : ∀ p ∈ l, d.familiesWithinCapacity p.2) :
    deviceReports (l.flatMap (fun p => (inspectDevice d p.1 p.2).1)) = l.length ∧
    deviceIndices (l.flatMap (fun p => (inspectDevice d p.1 p.2).1)) = l.map Prod.fst ∧
    propertiesQueried (l.flatMap (fun p => (inspectDevice d p.1 p.2).1)) = l.map Prod.snd ∧
    featuresQueried (l.flatMap (fun p => (inspectDevice d p.1 p.2).1)) = l.map Prod.snd ∧
    destroyCalls (l.flatMap (fun p => (inspectDevice d p.1 p.2).1)) = 0 ∧
    devicesEnumerated (l.flatMap (fun p => (inspectDevice d p.1 p.2).1)) = [] := by
  induction l with
  | nil => exact ⟨rfl, rfl, rfl, rfl, rfl, rfl⟩
  | cons p l ih =>
    obtain ⟨i1, i2, i3, i4, i5, i6⟩ := ih (fun x hx => hfam x (List.mem_cons_of_mem _ hx))
    obtain ⟨c1, c2, c3, c4, -, -, -, c8, c9⟩ :=
      inspectDevice_observed d p.1 p.2 (hfam p (List.mem_cons_self _ _))
    simp only [List.flatMap_cons, deviceReports_append, deviceIndices_append,
      propertiesQueried_append, featuresQueried_append, destroyCalls_append,
      devicesEnumerated_append, i1, i2, i3, i4, i5, i6, c1, c2, c3, c4, c8, c9,
      List.length_cons, List.map_cons, List.append_nil, List.singleton_append,
      Nat.add_zero, true_and, and_true]
    omega

theorem main_of_filled (d : Driver) (hres : d.vkCreateInstance.1 = VK_SUCCESS)
    (hcount : d.countDevices.1 = VK_SUCCESS) (hn : d.countDevices.2 ≠ 0)
    (hfill : (d.fillDevices d.countDevices.2).1 = VK_SUCCESS)
    (hcap : d.devicesWithinCapacity d.countDevices.2)
    (hfam : ∀ dev ∈ (d.fillDevices d.countDevices.2).2.2, d.familiesWithinCapacity dev) :
    main d =
      ([ Event.vkCreateInstance create_info,
         Event.printf "Vulkan instance created\n" [],
         Event.vkEnumeratePhysicalDevices d.vkCreateInstance.2 0 none,
         Event.printf "Found %d physical device%s\n"
           [Arg.num d.countDevices.2, Arg.str (if d.countDevices.2 > 1 then "s" else "")],
         Event.vkEnumeratePhysicalDevices d.vkCreateInstance.2 d.countDevices.2
           (some d.countDevices.2) ] ++
        (d.fillDevices d.countDevices.2).2.2.enum.flatMap
          (fun p => (inspectDevice d p.1 p.2).1) ++
        (if d.vkCreateInstance.2 ≠ VK_NULL_HANDLE then
          [ Event.vkDestroyInstance d.vkCreateInstance.2,
            Event.printf "\nVulkan instance destroyed\n" [] ]
         else []),
       some 0) := by
  obtain ⟨hlen, hcnt⟩ := hcap
  have hloop := deviceLoop_within d d.countDevices.2 (d.fillDevices d.countDevices.2).2.2 []
    (by simpa using hlen) hfam
  simp only [List.nil_append, List.length_nil] at hloop
  by_cases hhandle : d.vkCreateInstance.2 = VK_NULL_HANDLE
  · simp only [main, hres, hcount, hfill, hn, hcnt, hloop, hhandle, ne_eq, not_true_eq_false,
      not_false_eq_true, if_true, if_false, List.enum, List.cons_append, List.nil_append,
      List.append_assoc, List.append_nil]
  · simp only [main, hres, hcount, hfill, hn, hcnt, hloop, hhandle, ne_eq, not_true_eq_false,
      not_false_eq_true, if_true, if_false, List.enum, List.cons_append, List.nil_append,
      List.append_assoc]

theorem main_of_open_failed (d : Driver) (h : d.vkCreateInstance.1 ≠ VK_SUCCESS) :
    main d =
      ([ Event.vkCreateInstance create_info,
         Event.printf "Could not create Vulkan instance!\n" [] ],
       some (-1000)) := by
  simp only [main, h, ne_eq, not_false_eq_true, if_true, List.cons_append, List.nil_append]

theorem main_of_count_failed (d : Driver) (hres : d.vkCreateInstance.1 = VK_SUCCESS)
    (h : d.countDevices.1 ≠ VK_SUCCESS) :
    main d =
      ([ Event.vkCreateInstance create_info,
         Event.printf "Vulkan instance created\n" [],
         Event.vkEnumeratePhysicalDevices d.vkCreateInstance.2 0 none,
         Event.printf "Could get the number of physical devices\n" [] ],
       some (-1000)) := by
  simp only [main, hres, h, ne_eq, not_true_eq_false, not_false_eq_true, if_true, if_false,
    List.cons_append, List.nil_append]

theorem main_of_zero_devices (d : Driver) (hres : d.vkCreateInstance.1 = VK_SUCCESS)
    (hcount : d.countDevices.1 = VK_SUCCESS) (h : d.countDevices.2 = 0) :
    main d =
      ([ Event.vkCreateInstance create_info,
         Event.printf "Vulkan instance created\n" [],
         Event.vkEnumeratePhysicalDevices d.vkCreateInstance.2 0 none,
         Event.printf "0 physical devices found\n" [] ],
       some (-1000)) := by
  simp only [main, hres, hcount, h, ne_eq, not_true_eq_false, if_true, if_false,
    List.cons_append, List.nil_append]

theorem main_of_fill_failed (d : Driver) (hres : d.vkCreateInstance.1 = VK_SUCCESS)
    (hcount : d.countDevices.1 = VK_SUCCESS) (hn : d.countDevices.2 ≠ 0)
    (h : (d.fillDevices d.countDevices.2).1 ≠ VK_SUCCESS) :
    main d =
      ([ Event.vkCreateInstance create_info,
         Event.printf "Vulkan instance created\n" [],
         Event.vkEnumeratePhysicalDevices d.vkCreateInstance.2 0 none,
         Event.printf "Found %d physical device%s\n"
           [Arg.num d.countDevices.2, Arg.str (if d.countDevices.2 > 1 then "s" else "")],
         Event.vkEnumeratePhysicalDevices d.vkCreateInstance.2 d.countDevices.2
           (some d.countDevices.2),
         Event.printf "Could not enumerate physical devices\n" [] ],
       some (-1000)) := by
  simp only [main, hres, hcount, hn, h, ne_eq, not_true_eq_false, not_false_eq_true, if_true,
    if_false, List.cons_append, List.nil_append]

theorem main_filled_observed (d : Driver) (hres : d.vkCreateInstance.1 = VK_SUCCESS)
    (hcount : d.countDevices.1 = VK_SUCCESS) (hn : d.countDevices.2 ≠ 0)
    (hfill : (d.fillDevices d.countDevices.2).1 = VK_SUCCESS)
    (hcap : d.devicesWithinCapacity d.countDevices.2)
    (hfam : ∀ dev ∈ (d.fillDevices d.countDevices.2).2.2, d.familiesWithinCapacity dev) :
    (main d).2 = some 0 ∧
    deviceReports (main d).1 = (d.fillDevices d.countDevices.2).2.1 ∧
    deviceIndices (main d).1 = List.range (d.fillDevices d.countDevices.2).2.1 ∧
    propertiesQueried (main d).1 = (d.fillDevices d.countDevices.2).2.2 ∧
    featuresQueried (main d).1 = (d.fillDevices d.countDevices.2).2.2 ∧
    devicesEnumerated (main d).1 =
      [ (d.vkCreateInstance.2, 0, none),
        (d.vkCreateInstance.2, d.countDevices.2, some d.countDevices.2) ] ∧
    destroyCalls (main d).1 = (if d.vkCreateInstance.2 ≠ VK_NULL_HANDLE then 1 else 0) := by
  rw [main_of_filled d hres hcount hn hfill hcap hfam]
  have hfam2 : ∀ p ∈ (d.fillDevices d.countDevices.2).2.2.enum, d.familiesWithinCapacity p.2 :=
    fun p hp => hfam p.2 (by
      have h := List.mem_map_of_mem Prod.snd hp
      rwa [List.enum_map_snd] at h)
  obtain ⟨h1, h2, h3, h4, h5, h6⟩ :=
    devices_observed d (d.fillDevices d.countDevices.2).2.2.enum hfam2
  rw [List.enum_length, ← hcap.2] at h1
  rw [List.enum_map_fst, ← hcap.2] at h2
  rw [List.enum_map_snd] at h3 h4
  simp only [deviceReports_append, deviceIndices_append, propertiesQueried_append,
    featuresQueried_append, devicesEnumerated_append, destroyCalls_append,
    h1, h2, h3, h4, h5, h6]
  refine ⟨trivial, ?_, ?_, ?_, ?_, ?_, ?_⟩ <;> split_ifs <;>
    simp [deviceReports, deviceIndices, propertiesQueried, featuresQueried,
      devicesEnumerated, destroyCalls, List.countP_cons, Event.isDeviceReport, Event.isDestroy]

theorem main_exit_failure_iff (d : Driver) :
    (main d).2 = some (-1000) ↔
      (d.vkCreateInstance.1 ≠ VK_SUCCESS ∨ d.countDevices.1 ≠ VK_SUCCESS ∨
        d.countDevices.2 = 0 ∨ (d.fillDevices d.countDevices.2).1 ≠ VK_SUCCESS) := by
  by_cases h1 : d.vkCreateInstance.1 = VK_SUCCESS
  · by_cases h2 : d.countDevices.1 = VK_SUCCESS
    · by_cases h3 : d.countDevices.2 = 0
      · rw [main_of_zero_devices d h1 h2 h3]
        simp [h3]
      · by_cases h4 : (d.fillDevices d.countDevices.2).1 = VK_SUCCESS
        · have hne : (main d).2 ≠ some (-1000) := by
            simp only [main, h1, h2, h3, h4, ne_eq, not_true_eq_false, if_false]
            split_ifs <;> simp
          simp [hne, h1, h2, h3, h4]
        · rw [main_of_fill_failed d h1 h2 h3 h4]
          simp [h4]
    · rw [main_of_count_failed d h1 h2]
      simp [h2]
  · rw [main_of_open_failed d h1]
    simp [h1]

theorem queueFamilyLoop_calls (len : Nat) (written : List VkQueueFamilyProperties) :
    ∀ remaining j,
      queueFamiliesQueried (queueFamilyLoop len written remaining j).1 = [] ∧
      devicesEnumerated (queueFamilyLoop len written remaining j).1 = [] := by
  intro remaining
  induction remaining with
  | zero => intro j; exact ⟨rfl, rfl⟩
  | succ k ih =>
    intro j
    unfold queueFamilyLoop
    cases hr : readSlot len written j with
    | none => exact ⟨rfl, rfl⟩
    | some q =>
      obtain ⟨-, -, -, -, -, -, c7, c8, -⟩ := queueFamilyBody_observed j q
      obtain ⟨i1, i2⟩ := ih (j + 1)
      simp only [queueFamiliesQueried_append, devicesEnumerated_append, c7, c8, i1, i2,
        List.append_nil, and_self]

theorem inspectDevice_calls (d : Driver) (i dev : Nat) :
    queueFamiliesQueried (inspectDevice d i dev).1 =
      [ (dev, 0, none),
        (dev, d.countQueueFamilies dev, some (d.countQueueFamilies dev)) ] ∧
    devicesEnumerated (inspectDevice d i dev).1 = [] := by
  obtain ⟨-, -, -, -, -, -, -, p8, p9⟩ := printProperties_observed d i dev
  obtain ⟨l1, l2⟩ := queueFamilyLoop_calls (d.countQueueFamilies dev)
    (d.fillQueueFamilies dev (d.countQueueFamilies dev)).2
    (d.fillQueueFamilies dev (d.countQueueFamilies dev)).1 0
  simp only [inspectDevice, queueFamiliesQueried_append, devicesEnumerated_append,
    p8, p9, l1, l2, List.append_nil, List.nil_append]
  exact ⟨rfl, rfl⟩

theorem deviceLoop_enumerated (d : Driver) (len : Nat) (written : List Nat) :
    ∀ remaining i, devicesEnumerated (deviceLoop d len written remaining i).1 = [] := by
  intro remaining
  induction remaining with
  | zero => intro i; rfl
  | succ k ih =>
    intro i
    unfold deviceLoop
    cases hr : readSlot len written i with
    | none => rfl
    | some dev =>
      by_cases hb : (inspectDevice d i dev).2 = true
      · simp only [hb, if_true, devicesEnumerated_append, (inspectDevice_calls d i dev).2,
          ih (i + 1), List.append_nil]
      · simp only [hb, if_false, (inspectDevice_calls d i dev).2, Bool.false_eq_true]

theorem main_enumerated (d : Driver) :
    ∀ x ∈ devicesEnumerated (main d).1,
      x.2.2 = none ∨ (x.2.1 = d.countDevices.2 ∧ x.2.2 = some d.countDevices.2) := by
  have hlist : ∀ x : Nat × Nat × Option Nat,
      x ∈ [ (d.vkCreateInstance.2, 0, none),
            (d.vkCreateInstance.2, d.countDevices.2, some d.countDevices.2) ] →
      x.2.2 = none ∨ (x.2.1 = d.countDevices.2 ∧ x.2.2 = some d.countDevices.2) := by
    intro x hx
    simp only [List.mem_cons, List.mem_singleton, List.not_mem_nil, or_false] at hx
    rcases hx with hx | hx
    · left
      rw [hx]
    · right
      rw [hx]
      exact ⟨rfl, rfl⟩
  by_cases h1 : d.vkCreateInstance.1 = VK_SUCCESS
  · by_cases h2 : d.countDevices.1 = VK_SUCCESS
    · by_cases h3 : d.countDevices.2 = 0
      · rw [main_of_zero_devices d h1 h2 h3]
        intro x hx
        have hx2 : x = (d.vkCreateInstance.2, 0, none) := by
          simpa [devicesEnumerated] using hx
        left
        rw [hx2]
      · by_cases h4 : (d.fillDevices d.countDevices.2).1 = VK_SUCCESS
        · have hl := deviceLoop_enumerated d d.countDevices.2
            (d.fillDevices d.countDevices.2).2.2 (d.fillDevices d.countDevices.2).2.1 0
          have hall : devicesEnumerated (main d).1 =
              [ (d.vkCreateInstance.2, 0, none),
                (d.vkCreateInstance.2, d.countDevices.2, some d.countDevices.2) ] := by
            simp only [main, h1, h2, h3, h4, ne_eq, not_true_eq_false, if_false]
            split_ifs <;>
              simp only [devicesEnumerated_append, hl, List.append_nil] <;> rfl
          rw [hall]
          exact hlist
        · rw [main_of_fill_failed d h1 h2 h3 h4]
          intro x hx
          exact hlist x (by simpa [devicesEnumerated] using hx)
    · rw [main_of_count_failed d h1 h2]
      intro x hx
      have hx2 : x = (d.vkCreateInstance.2, 0, none) := by
        simpa [devicesEnumerated] using hx
      left
      rw [hx2]
  · rw [main_of_open_failed d h1]
    intro x hx
    simp [devicesEnumerated] at hx

/-! ## Claims on the run of `main` -/

/-- Claim C1, evaluated where it fails: for a loader that creates the instance
(status `VK_SUCCESS`, non-null handle) and then reports zero devices, fails the
count-phase call, or fails the fill-phase call, `main` returns -1000 without a single
call of `vkDestroyInstance`. -/
theorem C1_teardown_skipped_on_early_return :
    (driverZeroDevices.openSucceeds ∧ driverZeroDevices.countDevices = (VK_SUCCESS, 0) ∧
      (main driverZeroDevices).2 = some (-1000) ∧
      destroyCalls (main driverZeroDevices).1 = 0) ∧
    (driverCountFails.openSucceeds ∧ driverCountFails.countDevices.1 ≠ VK_SUCCESS ∧
      (main driverCountFails).2 = some (-1000) ∧
      destroyCalls (main driverCountFails).1 = 0) ∧
    (driverFillFails.openSucceeds ∧ driverFillFails.countDevices = (VK_SUCCESS, 2) ∧
      (driverFillFails.fillDevices 2).1 ≠ VK_SUCCESS ∧
      (main driverFillFails).2 = some (-1000) ∧
      destroyCalls (main driverFillFails).1 = 0) := by
  refine ⟨⟨⟨by decide, by decide⟩, by decide, by decide, by decide⟩,
    ⟨⟨by decide, by decide⟩, by decide, by decide, by decide⟩,
    ⟨⟨by decide, by decide⟩, by decide, by decide, by decide, by decide⟩⟩

/-- Claim C2, refuted as stated: a loader that refuses the instance (connection
failure), one that reports zero devices and one whose fill-phase call fails
(enumeration failure) make `main` return the same value, -1000. -/
theorem C2_failure_codes_coincide :
    driverOpenFails.vkCreateInstance.1 ≠ VK_SUCCESS ∧
    (driverZeroDevices.vkCreateInstance.1 = VK_SUCCESS ∧
      driverZeroDevices.countDevices = (VK_SUCCESS, 0)) ∧
    (driverFillFails.vkCreateInstance.1 = VK_SUCCESS ∧
      driverFillFails.countDevices = (VK_SUCCESS, 2) ∧
      (driverFillFails.fillDevices 2).1 ≠ VK_SUCCESS) ∧
    (main driverOpenFails).2 = (main driverZeroDevices).2 ∧
    (main driverZeroDevices).2 = (main driverFillFails).2 ∧
    (main driverOpenFails).2 = (main driverFillFails).2 := by
  refine ⟨by decide, ⟨by decide, by decide⟩, ⟨by decide, by decide, by decide⟩,
    by decide, by decide, by decide⟩

/-- Claim C2, amended: `main` returns -1000 exactly when the instance creation
fails, the count-phase call fails, the count is zero or the fill-phase call fails,
and it returns 0 only when none of these happens (and does return 0 then, for a
loader that respects the capacities); so the returned value tells success from
failure but not one failure from another. The failures are told apart by the last
message printed, which is different for each of the four failure points. -/
theorem C2_exit_code_amended (d : Driver) :
    ((main d).2 = some (-1000) ↔
      (d.vkCreateInstance.1 ≠ VK_SUCCESS ∨ d.countDevices.1 ≠ VK_SUCCESS ∨
        d.countDevices.2 = 0 ∨ (d.fillDevices d.countDevices.2).1 ≠ VK_SUCCESS)) ∧
    ((main d).2 = some 0 →
      d.vkCreateInstance.1 = VK_SUCCESS ∧ d.countDevices.1 = VK_SUCCESS ∧
        d.countDevices.2 ≠ 0 ∧ (d.fillDevices d.countDevices.2).1 = VK_SUCCESS) ∧
    (d.vkCreateInstance.1 = VK_SUCCESS → d.countDevices.1 = VK_SUCCESS →
      d.countDevices.2 ≠ 0 → (d.fillDevices d.countDevices.2).1 = VK_SUCCESS →
      d.devicesWithinCapacity d.countDevices.2 →
      (∀ dev ∈ (d.fillDevices d.countDevices.2).2.2, d.familiesWithinCapacity dev) →
      (main d).2 = some 0) ∧
    (d.vkCreateInstance.1 ≠ VK_SUCCESS →
      lastEvent (main d).1 = some (Event.printf "Could not create Vulkan instance!\n" [])) ∧
    (d.vkCreateInstance.1 = VK_SUCCESS → d.countDevices.1 ≠ VK_SUCCESS →
      lastEvent (main d).1 =
        some (Event.printf "Could get the number of physical devices\n" [])) ∧
    (d.vkCreateInstance.1 = VK_SUCCESS → d.countDevices.1 = VK_SUCCESS →
      d.countDevices.2 = 0 →
      lastEvent (main d).1 = some (Event.printf "0 physical devices found\n" [])) ∧
    (d.vkCreateInstance.1 = VK_SUCCESS → d.countDevices.1 = VK_SUCCESS →
      d.countDevices.2 ≠ 0 → (d.fillDevices d.countDevices.2).1 ≠ VK_SUCCESS →
      lastEvent (main d).1 =
        some (Event.printf "Could not enumerate physical devices\n" [])) ∧
    [ "Could not create Vulkan instance!\n", "Could get the number of physical devices\n",
      "0 physical devices found\n", "Could not enumerate physical devices\n" ].Nodup := by
  have hiff := main_exit_failure_iff d
  refine ⟨hiff, ?_, ?_, ?_, ?_, ?_, ?_, by decide⟩
  · intro h0
    have hne : ¬ (main d).2 = some (-1000) := by
      rw [h0]
      decide
    rw [hiff] at hne
    simp only [not_or, not_not] at hne
    exact ⟨hne.1, hne.2.1, hne.2.2.1, hne.2.2.2⟩
  · intro h1 h2 h3 h4 hcap hfam
    exact (main_filled_observed d h1 h2 h3 h4 hcap hfam).1
  · intro h1
    rw [main_of_open_failed d h1]
    rfl
  · intro h1 h2
    rw [main_of_count_failed d h1 h2]
    rfl
  · intro h1 h2 h3
    rw [main_of_zero_devices d h1 h2 h3]
    rfl
  · intro h1 h2 h3 h4
    rw [main_of_fill_failed d h1 h2 h3 h4]
    rfl

/-- Claim C7: when `vkCreateInstance` returns a status other than `VK_SUCCESS`, the
run of `main` consists of that call and the message "Could not create Vulkan
instance!", and `main` returns -1000: `vkDestroyInstance` is not called, and no
enumeration call and no per-device query is made. -/
theorem C7_open_failure (d : Driver) (h : d.vkCreateInstance.1 ≠ VK_SUCCESS) :
    main d =
      ([ Event.vkCreateInstance create_info,
         Event.printf "Could not create Vulkan instance!\n" [] ],
       some (-1000)) ∧
    destroyCalls (main d).1 = 0 ∧
    enumerationCalls (main d).1 = 0 ∧
    inspectionCalls (main d).1 = 0 := by
  rw [main_of_open_failed d h]
  exact ⟨rfl, rfl, rfl, rfl⟩

/-- Claim C10: when the instance creation fails, the count-phase call fails, the
count is zero or the fill-phase call fails, `main` returns -1000 having made no
per-device query (properties, features, queue families) and having printed no device
report and no queue family report. -/
theorem C10_failure_before_any_report (d : Driver)
    (h : d.vkCreateInstance.1 ≠ VK_SUCCESS ∨ d.countDevices.1 ≠ VK_SUCCESS ∨
      d.countDevices.2 = 0 ∨ (d.fillDevices d.countDevices.2).1 ≠ VK_SUCCESS) :
    (main d).2 = some (-1000) ∧
    inspectionCalls (main d).1 = 0 ∧
    deviceReports (main d).1 = 0 ∧
    queueFamilyReports (main d).1 = 0 := by
  by_cases h1 : d.vkCreateInstance.1 = VK_SUCCESS
  · by_cases h2 : d.countDevices.1 = VK_SUCCESS
    · by_cases h3 : d.countDevices.2 = 0
      · rw [main_of_zero_devices d h1 h2 h3]
        exact ⟨rfl, rfl, rfl, rfl⟩
      · have h4 : (d.fillDevices d.countDevices.2).1 ≠ VK_SUCCESS := by
          rcases h with h | h | h | h
          · exact absurd h1 h
          · exact absurd h2 h
          · exact absurd h h3
          · exact h
        rw [main_of_fill_failed d h1 h2 h3 h4]
        exact ⟨rfl, rfl, rfl, rfl⟩
    · rw [main_of_count_failed d h1 h2]
      exact ⟨rfl, rfl, rfl, rfl⟩
  · rw [main_of_open_failed d h1]
    exact ⟨rfl, rfl, rfl, rfl⟩

/-- Claim C6: when the instance is created, the count-phase call succeeds with
`n > 0` and the fill-phase call succeeds with count `m` (the loader having written
the `m ≤ n` handles it counts, and likewise the queue families of each of them),
`main` returns 0 and its run is the enumeration, then one report per handle
`p_phys_devices[0]`, ..., `p_phys_devices[m-1]` in index order, then the single call
of `vkDestroyInstance`. There are exactly `m` device reports. Report `i`, for the
handle `dev` at index `i`, is spelled out event by event: it prints index `i`,
queries the properties of `dev` and prints the name, type, versions, vendor id,
vendor name (the lookup of that vendor id), device id and limits that the loader
returned for `dev`; it queries the features and the queue families of `dev` with an
array of the counted size, and then prints, for each queue family that the loader
wrote for `dev`, in index order, its index, its queue count and the decoding of its
flags. It queries no other handle and holds as many queue family reports as the
fill-phase queue-family call of `dev` counted. -/
theorem C6_success_reports (d : Driver) (m : Nat)
    (hopen : d.openSucceeds)
    (hcount : d.countDevices.1 = VK_SUCCESS) (hn : 0 < d.countDevices.2)
    (hfill : (d.fillDevices d.countDevices.2).1 = VK_SUCCESS)
    (hm : (d.fillDevices d.countDevices.2).2.1 = m)
    (hcap : d.devicesWithinCapacity d.countDevices.2)
    (hfam : ∀ dev ∈ (d.fillDevices d.countDevices.2).2.2, d.familiesWithinCapacity dev) :
    (main d).2 = some 0 ∧
    (main d).1 =
      [ Event.vkCreateInstance create_info,
        Event.printf "Vulkan instance created\n" [],
        Event.vkEnumeratePhysicalDevices d.vkCreateInstance.2 0 none,
        Event.printf "Found %d physical device%s\n"
          [Arg.num d.countDevices.2, Arg.str (if d.countDevices.2 > 1 then "s" else "")],
        Event.vkEnumeratePhysicalDevices d.vkCreateInstance.2 d.countDevices.2
          (some d.countDevices.2) ] ++
      (d.fillDevices d.countDevices.2).2.2.enum.flatMap
        (fun p => (inspectDevice d p.1 p.2).1) ++
      [ Event.vkDestroyInstance d.vkCreateInstance.2,
        Event.printf "\nVulkan instance destroyed\n" [] ] ∧
    (d.fillDevices d.countDevices.2).2.2.length = m ∧
    deviceReports (main d).1 = m ∧
    deviceIndices (main d).1 = List.range m ∧
    propertiesQueried (main d).1 = (d.fillDevices d.countDevices.2).2.2 ∧
    featuresQueried (main d).1 = (d.fillDevices d.countDevices.2).2.2 ∧
    (∀ i dev : Nat, (d.fillDevices d.countDevices.2).2.2.get? i = some dev →
      (inspectDevice d i dev).1 =
        [ Event.printf "\n== Physical device %u ==\n" [Arg.num i],
          Event.vkGetPhysicalDeviceProperties dev,
          Event.printf "Name: %s\n" [Arg.str (d.properties dev).deviceName],
          Event.printf "Type: " [],
          Event.printf (deviceTypeName (d.properties dev).deviceType) [],
          Event.printf "Vulkan API: %u.%u.%u (variant %u)\n"
            [ Arg.num (((d.properties dev).apiVersion >>> 22) &&& 0x7F),
              Arg.num (((d.properties dev).apiVersion >>> 12) &&& 0x3FF),
              Arg.num ((d.properties dev).apiVersion &&& 0xFFF),
              Arg.num ((d.properties dev).apiVersion >>> 29) ],
          Event.printf "Driver version: %u\n" [Arg.num (d.properties dev).driverVersion],
          Event.printf "Vendor ID: %x" [Arg.num (d.properties dev).vendorID] ] ++
        (match lookup (d.properties dev).vendorID with
          | some vendor_name => [Event.printf " (%s)" [Arg.str vendor_name]]
          | none => []) ++
        [ Event.printf "\n" [],
          Event.printf "Device ID: %x\n" [Arg.num (d.properties dev).deviceID],
          Event.printf "Some of the device limits:\n" [],
          Event.printf "  maxImageDimension1D: %u\n"
            [Arg.num (d.properties dev).limits.maxImageDimension1D],
          Event.printf "  maxImageDimension2D: %u\n"
            [Arg.num (d.properties dev).limits.maxImageDimension2D],
          Event.printf "  maxImageDimension3D: %u\n"
            [Arg.num (d.properties dev).limits.maxImageDimension3D],
          Event.printf "  maxImageDimensionCube: %u\n"
            [Arg.num (d.properties dev).limits.maxImageDimensionCube],
          Event.printf "  maxTexelBufferElements: %u\n"
            [Arg.num (d.properties dev).limits.maxTexelBufferElements],
          Event.printf "  sparseAddressSpaceSize: %lu\n"
            [Arg.num (d.properties dev).limits.sparseAddressSpaceSize],
          Event.printf "  maxGeometryOutputVertices: %u\n"
            [Arg.num (d.properties dev).limits.maxGeometryOutputVertices],
          Event.printf "  maxViewportDimensions: %u x %u\n"
            [ Arg.num (d.properties dev).limits.maxViewportDimensions.1,
              Arg.num (d.properties dev).limits.maxViewportDimensions.2 ],
          Event.printf "  maxFramebufferWidth: %u\n"
            [Arg.num (d.properties dev).limits.maxFramebufferWidth],
          Event.printf "  maxFramebufferHeight: %u\n"
            [Arg.num (d.properties dev).limits.maxFramebufferHeight],
          Event.printf "  pointSizeRange: [%f, %f]\n"
            [ Arg.flt (d.properties dev).limits.pointSizeRange.1,
              Arg.flt (d.properties dev).limits.pointSizeRange.2 ],
          Event.printf "  pointSizeGranularity: %f\n"
            [Arg.flt (d.properties dev).limits.pointSizeGranularity],
          Event.printf "  lineWidthRange: [%f, %f]\n"
            [ Arg.flt (d.properties dev).limits.lineWidthRange.1,
              Arg.flt (d.properties dev).limits.lineWidthRange.2 ],
          Event.printf "  lineWidthGranularity: %f\n"
            [Arg.flt (d.properties dev).limits.lineWidthGranularity] ] ++
        [ Event.vkGetPhysicalDeviceFeatures dev,
          Event.vkGetPhysicalDeviceQueueFamilyProperties dev 0 none,
          Event.printf "\nNumber of queue families: %u\n"
            [Arg.num (d.countQueueFamilies dev)],
          Event.vkGetPhysicalDeviceQueueFamilyProperties dev (d.countQueueFamilies dev)
            (some (d.countQueueFamilies dev)) ] ++
        (d.fillQueueFamilies dev (d.countQueueFamilies dev)).2.enum.flatMap
          (fun q =>
            [ Event.printf "  Queue family %u\n" [Arg.num q.1],
              Event.printf "    Number of queues: %u\n" [Arg.num q.2.queueCount],
              Event.printf "    Flags:" [] ] ++
            (decodeQueueFlags q.2.queueFlags).map (fun name => Event.printf name []) ++
            [ Event.printf "\n" [] ]) ∧
      deviceReports (inspectDevice d i dev).1 = 1 ∧
      deviceIndices (inspectDevice d i dev).1 = [i] ∧
      propertiesQueried (inspectDevice d i dev).1 = [dev] ∧
      featuresQueried (inspectDevice d i dev).1 = [dev] ∧
      queueFamiliesQueried (inspectDevice d i dev).1 =
        [ (dev, 0, none),
          (dev, d.countQueueFamilies dev, some (d.countQueueFamilies dev)) ] ∧
      queueFamilyReports (inspectDevice d i dev).1 =
        (d.fillQueueFamilies dev (d.countQueueFamilies dev)).1 ∧
      queueFamilyIndices (inspectDevice d i dev).1 =
        List.range (d.fillQueueFamilies dev (d.countQueueFamilies dev)).1 ∧
      (d.fillQueueFamilies dev (d.countQueueFamilies dev)).2.length =
        (d.fillQueueFamilies dev (d.countQueueFamilies dev)).1) ∧
    destroyCalls (main d).1 = 1 := by
  have hn0 : d.countDevices.2 ≠ 0 := by omega
  obtain ⟨o1, o2, o3, o4, o5, -, o7⟩ :=
    main_filled_observed d hopen.1 hcount hn0 hfill hcap hfam
  have hshape := main_of_filled d hopen.1 hcount hn0 hfill hcap hfam
  rw [if_pos hopen.2] at hshape o7
  refine ⟨o1, ?_, ?_, ?_, ?_, o4, o5, ?_, o7⟩
  · rw [hshape]
  · rw [← hm, hcap.2]
  · rw [o2, hm]
  · rw [o3, hm]
  · intro i dev hi
    have hmem : dev ∈ (d.fillDevices d.countDevices.2).2.2 := List.get?_mem hi
    obtain ⟨s1, s2, s3, s4, s5, s6, s7, -, -⟩ :=
      inspectDevice_observed d i dev (hfam dev hmem)
    refine ⟨?_, s1, s2, s3, s4, s5, s6, s7, (hfam dev hmem).2.symm⟩
    rw [inspectDevice_within d i dev (hfam dev hmem)]
    rfl

/-- Claim C8: in every run the fill-phase call of `vkEnumeratePhysicalDevices` is made
with an array of exactly `n` elements and capacity `n`, where `n` is the count obtained
from the count-phase call, and it is made whenever that count is obtained and not
zero; likewise for every device the fill-phase queue-family call is made with an array
of exactly the counted number `c` of elements and capacity `c`. For a loader that
writes at most the capacity and sets the count to the number written (for the devices
and for the queue families of each device written), the run reads no array element
that is outside the array or unwritten, the device loop runs at most `n` times and at
indices below `n`, and for each device the queue family loop runs at most `c` times
and at indices below `c`. -/
theorem C8_exact_sizing (d : Driver) :
    (∀ x ∈ devicesEnumerated (main d).1,
      x.2.2 = none ∨ (x.2.1 = d.countDevices.2 ∧ x.2.2 = some d.countDevices.2)) ∧
    (d.vkCreateInstance.1 = VK_SUCCESS → d.countDevices.1 = VK_SUCCESS →
      d.countDevices.2 ≠ 0 →
      (d.vkCreateInstance.2, d.countDevices.2, some d.countDevices.2) ∈
        devicesEnumerated (main d).1) ∧
    (∀ i dev : Nat, queueFamiliesQueried (inspectDevice d i dev).1 =
      [ (dev, 0, none),
        (dev, d.countQueueFamilies dev, some (d.countQueueFamilies dev)) ]) ∧
    (d.devicesWithinCapacity d.countDevices.2 →
      (∀ dev ∈ (d.fillDevices d.countDevices.2).2.2, d.familiesWithinCapacity dev) →
      (main d).2 ≠ none ∧
      deviceReports (main d).1 ≤ d.countDevices.2 ∧
      (∀ i ∈ deviceIndices (main d).1, i < d.countDevices.2) ∧
      (∀ i : Nat, ∀ dev ∈ (d.fillDevices d.countDevices.2).2.2,
        (inspectDevice d i dev).2 = true ∧
        queueFamilyReports (inspectDevice d i dev).1 ≤ d.countQueueFamilies dev ∧
        ∀ j ∈ queueFamilyIndices (inspectDevice d i dev).1,
          j < d.countQueueFamilies dev)) := by
  refine ⟨main_enumerated d, ?_, fun i dev => (inspectDevice_calls d i dev).1, ?_⟩
  · intro h1 h2 h3
    by_cases h4 : (d.fillDevices d.countDevices.2).1 = VK_SUCCESS
    · have hl := deviceLoop_enumerated d d.countDevices.2
        (d.fillDevices d.countDevices.2).2.2 (d.fillDevices d.countDevices.2).2.1 0
      have hall : devicesEnumerated (main d).1 =
          [ (d.vkCreateInstance.2, 0, none),
            (d.vkCreateInstance.2, d.countDevices.2, some d.countDevices.2) ] := by
        simp only [main, h1, h2, h3, h4, ne_eq, not_true_eq_false, if_false]
        split_ifs <;>
          simp only [devicesEnumerated_append, hl, List.append_nil] <;> rfl
      rw [hall]
      simp
    · rw [main_of_fill_failed d h1 h2 h3 h4]
      simp [devicesEnumerated]
  · intro hcap hfam
    have hdev : ∀ i : Nat, ∀ dev ∈ (d.fillDevices d.countDevices.2).2.2,
        (inspectDevice d i dev).2 = true ∧
        queueFamilyReports (inspectDevice d i dev).1 ≤ d.countQueueFamilies dev ∧
        ∀ j ∈ queueFamilyIndices (inspectDevice d i dev).1,
          j < d.countQueueFamilies dev := by
      intro i dev hmem
      have hf := hfam dev hmem
      obtain ⟨-, -, -, -, -, s6, s7, -, -⟩ := inspectDevice_observed d i dev hf
      have hle : (d.fillQueueFamilies dev (d.countQueueFamilies dev)).1 ≤
          d.countQueueFamilies dev := by
        rw [hf.2]
        exact hf.1
      refine ⟨?_, ?_, ?_⟩
      · rw [inspectDevice_within d i dev hf]
      · rw [s6]
        exact hle
      · intro j hj
        rw [s7, List.mem_range] at hj
        omega
    have hle : (d.fillDevices d.countDevices.2).2.1 ≤ d.countDevices.2 := by
      rw [hcap.2]
      exact hcap.1
    by_cases hfail : d.vkCreateInstance.1 ≠ VK_SUCCESS ∨ d.countDevices.1 ≠ VK_SUCCESS ∨
        d.countDevices.2 = 0 ∨ (d.fillDevices d.countDevices.2).1 ≠ VK_SUCCESS
    · have hexit := (main_exit_failure_iff d).2 hfail
      have hquiet : deviceReports (main d).1 = 0 ∧ deviceIndices (main d).1 = [] := by
        by_cases h1 : d.vkCreateInstance.1 = VK_SUCCESS
        · by_cases h2 : d.countDevices.1 = VK_SUCCESS
          · by_cases h3 : d.countDevices.2 = 0
            · rw [main_of_zero_devices d h1 h2 h3]
              exact ⟨rfl, rfl⟩
            · have h4 : (d.fillDevices d.countDevices.2).1 ≠ VK_SUCCESS := by
                rcases hfail with h | h | h | h
                · exact absurd h1 h
                · exact absurd h2 h
                · exact absurd h h3
                · exact h
              rw [main_of_fill_failed d h1 h2 h3 h4]
              exact ⟨rfl, rfl⟩
          · rw [main_of_count_failed d h1 h2]
            exact ⟨rfl, rfl⟩
        · rw [main_of_open_failed d h1]
          exact ⟨rfl, rfl⟩
      refine ⟨?_, ?_, ?_, hdev⟩
      · rw [hexit]
        simp
      · rw [hquiet.1]
        exact Nat.zero_le _
      · intro i hi
        rw [hquiet.2] at hi
        exact absurd hi (List.not_mem_nil i)
    · simp only [not_or, not_not] at hfail
      obtain ⟨h1, h2, h3, h4⟩ := hfail
      obtain ⟨o1, o2, o3, -, -, -, -⟩ := main_filled_observed d h1 h2 h3 h4 hcap hfam
      refine ⟨?_, ?_, ?_, hdev⟩
      · rw [o1]
        simp
      · rw [o2]
        exact hle
      · intro i hi
        rw [o3, List.mem_range] at hi
        omega

/-! ## The claims at the sample loaders -/

theorem driverTwoDevices_families :
    ∀ dev ∈ (driverTwoDevices.fillDevices driverTwoDevices.countDevices.2).2.2,
      driverTwoDevices.familiesWithinCapacity dev := by
  intro dev hdev
  have h : dev = 10 ∨ dev = 11 := by
    simpa [driverTwoDevices] using hdev
  rcases h with h | h <;> subst h <;> exact ⟨by decide, by decide⟩

/-- The amended claim C2 at the five sample loaders, one for each outcome. -/
theorem C2_exit_code_amended_witness :
    ((main driverOpenFails).2 = some (-1000) ∧
      lastEvent (main driverOpenFails).1 =
        some (Event.printf "Could not create Vulkan instance!\n" [])) ∧
    lastEvent (main driverCountFails).1 =
      some (Event.printf "Could get the number of physical devices\n" []) ∧
    lastEvent (main driverZeroDevices).1 =
      some (Event.printf "0 physical devices found\n" []) ∧
    lastEvent (main driverFillFails).1 =
      some (Event.printf "Could not enumerate physical devices\n" []) ∧
    (main driverTwoDevices).2 = some 0 :=
  ⟨⟨((C2_exit_code_amended driverOpenFails).1).2 (Or.inl (by decide)),
      (C2_exit_code_amended driverOpenFails).2.2.2.1 (by decide)⟩,
    (C2_exit_code_amended driverCountFails).2.2.2.2.1 (by decide) (by decide),
    (C2_exit_code_amended driverZeroDevices).2.2.2.2.2.1 (by decide) (by decide) (by decide),
    (C2_exit_code_amended driverFillFails).2.2.2.2.2.2.1 (by decide) (by decide) (by decide)
      (by decide),
    (C2_exit_code_amended driverTwoDevices).2.2.1 (by decide) (by decide) (by decide)
      (by decide) ⟨by decide, by decide⟩ driverTwoDevices_families⟩

/-- Claim C6 at the sample loader with two devices: the count-phase call returns 2,
the fill-phase call returns the 2 handles 10 and 11, and the run has exactly 2 device
reports, for the handles 10 and 11 in this order, one call of `vkDestroyInstance` and
the return value 0. The report of index 0 shows what the loader returns for handle
10 (name "GPU", discrete GPU, API 1.3.0, vendor 0x10DE resolved to "Nvidia", two
queue families with 16 and 2 queues), the report of index 1 what it returns for
handle 11 (name "CPU", an unlisted vendor, one queue family). -/
theorem C6_success_reports_witness :
    driverTwoDevices.openSucceeds ∧
    driverTwoDevices.countDevices = (VK_SUCCESS, 2) ∧
    driverTwoDevices.fillDevices 2 = (VK_SUCCESS, 2, [10, 11]) ∧
    (main driverTwoDevices).2 = some 0 ∧
    deviceReports (main driverTwoDevices).1 = 2 ∧
    deviceIndices (main driverTwoDevices).1 = [0, 1] ∧
    propertiesQueried (main driverTwoDevices).1 = [10, 11] ∧
    featuresQueried (main driverTwoDevices).1 = [10, 11] ∧
    destroyCalls (main driverTwoDevices).1 = 1 ∧
    (inspectDevice driverTwoDevices 0 10).1 =
      [ Event.printf "\n== Physical device %u ==\n" [Arg.num 0],
        Event.vkGetPhysicalDeviceProperties 10,
        Event.printf "Name: %s\n" [Arg.str "GPU"],
        Event.printf "Type: " [],
        Event.printf "Discrete GPU\n" [],
        Event.printf "Vulkan API: %u.%u.%u (variant %u)\n"
          [Arg.num 1, Arg.num 3, Arg.num 0, Arg.num 0],
        Event.printf "Driver version: %u\n" [Arg.num 1],
        Event.printf "Vendor ID: %x" [Arg.num 0x10DE],
        Event.printf " (%s)" [Arg.str "Nvidia"],
        Event.printf "\n" [],
        Event.printf "Device ID: %x\n" [Arg.num 0x1C03],
        Event.printf "Some of the device limits:\n" [],
        Event.printf "  maxImageDimension1D: %u\n" [Arg.num 16384],
        Event.printf "  maxImageDimension2D: %u\n" [Arg.num 16384],
        Event.printf "  maxImageDimension3D: %u\n" [Arg.num 2048],
        Event.printf "  maxImageDimensionCube: %u\n" [Arg.num 16384],
        Event.printf "  maxTexelBufferElements: %u\n" [Arg.num 134217728],
        Event.printf "  sparseAddressSpaceSize: %lu\n" [Arg.num 1099511627776],
        Event.printf "  maxGeometryOutputVertices: %u\n" [Arg.num 1024],
        Event.printf "  maxViewportDimensions: %u x %u\n" [Arg.num 16384, Arg.num 16384],
        Event.printf "  maxFramebufferWidth: %u\n" [Arg.num 16384],
        Event.printf "  maxFramebufferHeight: %u\n" [Arg.num 16384],
        Event.printf "  pointSizeRange: [%f, %f]\n" [Arg.flt 0x3F800000, Arg.flt 0x42800000],
        Event.printf "  pointSizeGranularity: %f\n" [Arg.flt 0x3E000000],
        Event.printf "  lineWidthRange: [%f, %f]\n" [Arg.flt 0x3F800000, Arg.flt 0x41000000],
        Event.printf "  lineWidthGranularity: %f\n" [Arg.flt 0x3E000000],
        Event.vkGetPhysicalDeviceFeatures 10,
        Event.vkGetPhysicalDeviceQueueFamilyProperties 10 0 none,
        Event.printf "\nNumber of queue families: %u\n" [Arg.num 2],
        Event.vkGetPhysicalDeviceQueueFamilyProperties 10 2 (some 2),
        Event.printf "  Queue family %u\n" [Arg.num 0],
        Event.printf "    Number of queues: %u\n" [Arg.num 16],
        Event.printf "    Flags:" [],
        Event.printf " VK_QUEUE_GRAPHICS_BIT" [],
        Event.printf " VK_QUEUE_COMPUTE_BIT" [],
        Event.printf " VK_QUEUE_TRANSFER_BIT" [],
        Event.printf " VK_QUEUE_SPARSE_BINDING_BIT" [],
        Event.printf "\n" [],
        Event.printf "  Queue family %u\n" [Arg.num 1],
        Event.printf "    Number of queues: %u\n" [Arg.num 2],
        Event.printf "    Flags:" [],
        Event.printf " VK_QUEUE_TRANSFER_BIT" [],
        Event.printf "\n" [] ] ∧
    (inspectDevice driverTwoDevices 1 11).1 =
      [ Event.printf "\n== Physical device %u ==\n" [Arg.num 1],
        Event.vkGetPhysicalDeviceProperties 11,
        Event.printf "Name: %s\n" [Arg.str "CPU"],
        Event.printf "Type: " [],
        Event.printf "CPU\n" [],
        Event.printf "Vulkan API: %u.%u.%u (variant %u)\n"
          [Arg.num 1, Arg.num 0, Arg.num 0, Arg.num 0],
        Event.printf "Driver version: %u\n" [Arg.num 1],
        Event.printf "Vendor ID: %x" [Arg.num 0x9999],
        Event.printf "\n" [],
        Event.printf "Device ID: %x\n" [Arg.num 0],
        Event.printf "Some of the device limits:\n" [],
        Event.printf "  maxImageDimension1D: %u\n" [Arg.num 16384],
        Event.printf "  maxImageDimension2D: %u\n" [Arg.num 16384],
        Event.printf "  maxImageDimension3D: %u\n" [Arg.num 2048],
        Event.printf "  maxImageDimensionCube: %u\n" [Arg.num 16384],
        Event.printf "  maxTexelBufferElements: %u\n" [Arg.num 134217728],
        Event.printf "  sparseAddressSpaceSize: %lu\n" [Arg.num 1099511627776],
        Event.printf "  maxGeometryOutputVertices: %u\n" [Arg.num 1024],
        Event.printf "  maxViewportDimensions: %u x %u\n" [Arg.num 16384, Arg.num 16384],
        Event.printf "  maxFramebufferWidth: %u\n" [Arg.num 16384],
        Event.printf "  maxFramebufferHeight: %u\n" [Arg.num 16384],
        Event.printf "  pointSizeRange: [%f, %f]\n" [Arg.flt 0x3F800000, Arg.flt 0x42800000],
        Event.printf "  pointSizeGranularity: %f\n" [Arg.flt 0x3E000000],
        Event.printf "  lineWidthRange: [%f, %f]\n" [Arg.flt 0x3F800000, Arg.flt 0x41000000],
        Event.printf "  lineWidthGranularity: %f\n" [Arg.flt 0x3E000000],
        Event.vkGetPhysicalDeviceFeatures 11,
        Event.vkGetPhysicalDeviceQueueFamilyProperties 11 0 none,
        Event.printf "\nNumber of queue families: %u\n" [Arg.num 1],
        Event.vkGetPhysicalDeviceQueueFamilyProperties 11 1 (some 1),
        Event.printf "  Queue family %u\n" [Arg.num 0],
        Event.printf "    Number of queues: %u\n" [Arg.num 1],
        Event.printf "    Flags:" [],
        Event.printf " VK_QUEUE_COMPUTE_BIT" [],
        Event.printf "\n" [] ] ∧
    queueFamilyReports (inspectDevice driverTwoDevices 0 10).1 = 2 ∧
    queueFamilyReports (inspectDevice driverTwoDevices 1 11).1 = 1 :=
  have h := C6_success_reports driverTwoDevices 2 ⟨by decide, by decide⟩ (by decide)
    (by decide) (by decide) (by decide) ⟨by decide, by decide⟩ driverTwoDevices_families
  have h0 := h.2.2.2.2.2.2.2.1 0 10 (by decide)
  have h1 := h.2.2.2.2.2.2.2.1 1 11 (by decide)
  ⟨⟨by decide, by decide⟩, by decide, by decide, h.1, h.2.2.2.1, h.2.2.2.2.1,
    h.2.2.2.2.2.1, h.2.2.2.2.2.2.1, h.2.2.2.2.2.2.2.2, h0.1, h1.1,
    h0.2.2.2.2.2.2.1, h1.2.2.2.2.2.2.1⟩

/-- Claim C7 at the sample loader that refuses the instance. -/
theorem C7_open_failure_witness :
    driverOpenFails.vkCreateInstance.1 ≠ VK_SUCCESS ∧
    (main driverOpenFails).2 = some (-1000) ∧
    destroyCalls (main driverOpenFails).1 = 0 ∧
    enumerationCalls (main driverOpenFails).1 = 0 ∧
    inspectionCalls (main driverOpenFails).1 = 0 :=
  have h := C7_open_failure driverOpenFails (by decide)
  ⟨by decide, congrArg Prod.snd h.1, h.2.1, h.2.2.1, h.2.2.2⟩

/-- Claim C8 at the sample loader with two devices: the fill-phase call is made with
capacity 2 and an array of 2 elements, the device loop runs at most twice, at indices
below 2, and no undefined read occurs. -/
theorem C8_exact_sizing_witness :
    driverTwoDevices.devicesWithinCapacity 2 ∧
    (1, 2, some 2) ∈ devicesEnumerated (main driverTwoDevices).1 ∧
    (main driverTwoDevices).2 ≠ none ∧
    deviceReports (main driverTwoDevices).1 ≤ 2 ∧
    (∀ i ∈ deviceIndices (main driverTwoDevices).1, i < 2) ∧
    queueFamilyReports (inspectDevice driverTwoDevices 0 10).1 ≤ 2 :=
  have h := C8_exact_sizing driverTwoDevices
  have h4 := h.2.2.2 ⟨by decide, by decide⟩ driverTwoDevices_families
  ⟨⟨by decide, by decide⟩, h.2.1 (by decide) (by decide) (by decide), h4.1, h4.2.1,
    h4.2.2.1, (h4.2.2.2 0 10 (by decide)).2.1⟩

/-- Claim C10 at the four sample loaders that fail: no per-device query, no device
report and no queue family report. -/
theorem C10_failure_before_any_report_witness :
    (driverZeroDevices.countDevices.2 = 0 ∧
      (main driverZeroDevices).2 = some (-1000) ∧
      inspectionCalls (main driverZeroDevices).1 = 0 ∧
      deviceReports (main driverZeroDevices).1 = 0 ∧
      queueFamilyReports (main driverZeroDevices).1 = 0) ∧
    (driverOpenFails.vkCreateInstance.1 ≠ VK_SUCCESS ∧
      deviceReports (main driverOpenFails).1 = 0) ∧
    (driverCountFails.countDevices.1 ≠ VK_SUCCESS ∧
      deviceReports (main driverCountFails).1 = 0) ∧
    ((driverFillFails.fillDevices driverFillFails.countDevices.2).1 ≠ VK_SUCCESS ∧
      deviceReports (main driverFillFails).1 = 0) :=
  ⟨⟨by decide, C10_failure_before_any_report driverZeroDevices
      (Or.inr (Or.inr (Or.inl (by decide))))⟩,
    ⟨by decide, (C10_failure_before_any_report driverOpenFails
      (Or.inl (by decide))).2.2.1⟩,
    ⟨by decide, (C10_failure_before_any_report driverCountFails
      (Or.inr (Or.inl (by decide)))).2.2.1⟩,
    ⟨by decide, (C10_failure_before_any_report driverFillFails
      (Or.inr (Or.inr (Or.inr (by decide))))).2.2.1⟩⟩

end LoadtimeDynlink
